import Mathlib

/-!
Shallow embedding of the multiplayer elimination dice game server
(room directory, lobby handlers, and the turn-based game engine).
JavaScript objects become Lean structures; `undefined`/`null` valued
fields become `Option`; in-place mutation of an array slot becomes
`List.set` / `listModify`; the `rooms` Map (insertion-ordered) becomes
an association list.
-/

/-- The fixed six-color palette `PLAYER_COLORS`. -/
def PLAYER_COLORS : List String :=
  ["#3B82F6", "#EF4444", "#10B981", "#F59E0B", "#8B5CF6", "#EC4899"]

/-- One of a player's N numbered slots: `{stage, isActive, bullets}`. -/
structure Cell where
  stage : Nat
  isActive : Bool
  bullets : Nat
deriving DecidableEq, Repr

/-- Per-player statistics `{shotsFired, eliminations, timesTargeted}`. -/
structure PlayerStats where
  shotsFired : Nat
  eliminations : Nat
  timesTargeted : Nat
deriving DecidableEq, Repr

/-- A game-side player record, created from the lobby roster at start. -/
structure GamePlayer where
  id : String
  username : String
  color : String
  eliminated : Bool
  firstMove : Bool
  cells : List Cell
  stats : PlayerStats
deriving DecidableEq, Repr

/-- A `gameLog` record.  The source pushes plain JS objects whose field
sets differ by `type`; absent fields read as `undefined`, modelled here
as `none` defaults on a single record type. -/
structure LogEntry where
  type : String
  player : Option String := none
  message : Option String := none
  cell : Option Nat := none
  shooter : Option String := none
  target : Option String := none
deriving DecidableEq, Repr

/-- The authoritative per-room game state. -/
structure GameState where
  currentPlayer : Nat
  players : List GamePlayer
  lastRoll : Option Nat
  gameLog : List LogEntry
deriving DecidableEq, Repr

/-- A lobby roster entry. -/
structure LobbyPlayer where
  id : String
  username : String
  ready : Bool
  isLeader : Bool
  color : String
deriving DecidableEq, Repr

/-- A room as stored in the `rooms` map.  The quick-match room literal
has no `password` key and the `createRoom` literal has no `isQuickMatch`
key; reading an absent JS field gives `undefined`, so those become
`none` / `false` here. -/
structure Room where
  id : String
  leader : String
  password : Option String
  maxPlayers : Nat
  isQuickMatch : Bool
  players : List LobbyPlayer
  gameState : Option GameState
  started : Bool
deriving DecidableEq, Repr

/-- One `{eliminator, eliminated}` pair of the end-of-game history. -/
structure Elimination where
  eliminator : Option String
  eliminated : Option String
deriving DecidableEq, Repr

/-- The end-of-game history record.  `Object.fromEntries` keeps the last
pair for a duplicated username; usernames are kept as an ordered list of
pairs here, in the same creation order as the source's `map`. -/
structure History where
  winner : String
  eliminations : List Elimination
  playerStats : List (String × PlayerStats)
deriving DecidableEq, Repr

/-- Result record of `processGameAction`. -/
structure GameActionResult where
  gameState : GameState
  gameEnded : Bool
  history : Option History
deriving DecidableEq, Repr

/-- The `action` string together with the used fields of `data`.
`unknownKind` stands for any action string other than
`roll`/`shoot`/`emote`, which the `switch` statement ignores. -/
inductive GameAction where
  | roll (value : Nat)
  | shoot (targetPlayer : Nat) (targetCell : Nat)
  | emote (message : String)
  | unknownKind (kind : String)
deriving DecidableEq, Repr

def dummyCell : Cell := { stage := 0, isActive := false, bullets := 0 }

def dummyStats : PlayerStats := { shotsFired := 0, eliminations := 0, timesTargeted := 0 }

def dummyPlayer : GamePlayer :=
  { id := "", username := "", color := "", eliminated := false, firstMove := false,
    cells := [], stats := dummyStats }

def dummyLobbyPlayer : LobbyPlayer :=
  { id := "", username := "", ready := false, isLeader := false, color := "" }

/-- In-place update of one list slot (JS `xs[i].f = v` style); out of
range it changes nothing, like JS index assignment on a missing slot. -/
def listModify (f : α → α) : Nat → List α → List α
  | _, [] => []
  | 0, x :: xs => f x :: xs
  | n + 1, x :: xs => x :: listModify f n xs

/-- `map` with the element index, as in `players.map((p, index) => ...)`. -/
def mapIdxFrom (f : Nat → α → β) (i : Nat) : List α → List β
  | [] => []
  | x :: xs => f i x :: mapIdxFrom f (i + 1) xs

/-- `initializeGameState(players)`: fresh `GameState` from a roster. -/
def initializeGameState (players : List LobbyPlayer) : GameState :=
  { currentPlayer := 0,
    players := mapIdxFrom (fun index p =>
      { id := p.id,
        username := p.username,
        color := PLAYER_COLORS.getD (index % PLAYER_COLORS.length) "",
        eliminated := false,
        firstMove := true,
        cells := List.replicate players.length { stage := 0, isActive := false, bullets := 0 },
        stats := { shotsFired := 0, eliminations := 0, timesTargeted := 0 } }) 0 players,
    lastRoll := none,
    gameLog := [] }

def firstMoveEntry (u : String) : LogEntry :=
  { type := "firstMove", player := some u,
    message := some (u ++ " needs to roll a 1 to start!") }

def activateEntry (u : String) (c : Nat) : LogEntry :=
  { type := "activate", player := some u, cell := some c }

def maxLevelEntry (u : String) (c : Nat) : LogEntry :=
  { type := "maxLevel", player := some u, cell := some c }

def reloadEntry (u : String) (c : Nat) : LogEntry :=
  { type := "reload", player := some u, cell := some c }

def shootEntry (shooter target : String) (c : Nat) : LogEntry :=
  { type := "shoot", shooter := some shooter, target := some target, cell := some c }

def eliminateEntry (u : String) : LogEntry :=
  { type := "eliminate", player := some u }

def emoteEntry (u m : String) : LogEntry :=
  { type := "emote", player := some u, message := some m }

/-- The `switch (action)` body of `processGameAction`: the per-action
mutation of `gameState`, before the common end-of-action sequence. -/
def applyAction (gameState : GameState) (action : GameAction) : GameState :=
  let cpIdx := gameState.currentPlayer
  let currentPlayer := gameState.players.getD cpIdx dummyPlayer
  match action with
  | .roll value =>
    let gs := { gameState with lastRoll := some value }
    if currentPlayer.firstMove && value != 1 then
      { gs with gameLog := gs.gameLog ++ [firstMoveEntry currentPlayer.username] }
    else
      let cp1 := if currentPlayer.firstMove && value == 1 then
                   { currentPlayer with firstMove := false }
                 else currentPlayer
      let cellIndex := value - 1
      let cell := cp1.cells.getD cellIndex dummyCell
      if !cell.isActive then
        { gs with
          players := gs.players.set cpIdx
            { cp1 with cells := cp1.cells.set cellIndex { stage := 1, isActive := true, bullets := 0 } },
          gameLog := gs.gameLog ++ [activateEntry cp1.username (cellIndex + 1)] }
      else if cell.stage < 6 then
        if cell.stage + 1 == 6 then
          { gs with
            players := gs.players.set cpIdx
              { cp1 with cells := cp1.cells.set cellIndex { cell with stage := cell.stage + 1, bullets := 5 } },
            gameLog := gs.gameLog ++ [maxLevelEntry cp1.username (cellIndex + 1)] }
        else
          { gs with
            players := gs.players.set cpIdx
              { cp1 with cells := cp1.cells.set cellIndex { cell with stage := cell.stage + 1 } } }
      else if cell.bullets == 0 then
        { gs with
          players := gs.players.set cpIdx
            { cp1 with cells := cp1.cells.set cellIndex { cell with bullets := 5 } },
          gameLog := gs.gameLog ++ [reloadEntry cp1.username (cellIndex + 1)] }
      else
        { gs with players := gs.players.set cpIdx cp1 }
  | .shoot targetPlayer targetCell =>
    let target := gameState.players.getD targetPlayer dummyPlayer
    if gameState.lastRoll == some (targetCell + 1) then
      let shooterCell := currentPlayer.cells.getD targetCell dummyCell
      if shooterCell.bullets > 0 then
        if targetPlayer == cpIdx then
          -- In the source, `target` and `currentPlayer` are then the same
          -- object: the cell reset replaces the array slot with a fresh
          -- object, so the later `shooterCell.bullets -= 1` mutates a
          -- detached object and is not visible in the state.
          let newCells := currentPlayer.cells.set targetCell { stage := 0, isActive := false, bullets := 0 }
          let elim := newCells.all (fun c => !c.isActive)
          let newSelf :=
            { currentPlayer with
              cells := newCells,
              eliminated := elim,
              stats :=
                { shotsFired := currentPlayer.stats.shotsFired + 1,
                  eliminations := currentPlayer.stats.eliminations + (if elim then 1 else 0),
                  timesTargeted := currentPlayer.stats.timesTargeted + 1 } }
          { gameState with
            players := gameState.players.set cpIdx newSelf,
            gameLog := gameState.gameLog
              ++ [shootEntry currentPlayer.username currentPlayer.username (targetCell + 1)]
              ++ (if elim then [eliminateEntry currentPlayer.username] else []) }
        else
          let newTargetCells := target.cells.set targetCell { stage := 0, isActive := false, bullets := 0 }
          let elim := newTargetCells.all (fun c => !c.isActive)
          let newTarget :=
            { target with
              cells := newTargetCells,
              eliminated := elim,
              stats := { target.stats with timesTargeted := target.stats.timesTargeted + 1 } }
          let newShooter :=
            { currentPlayer with
              cells := currentPlayer.cells.set targetCell { shooterCell with bullets := shooterCell.bullets - 1 },
              stats :=
                { currentPlayer.stats with
                  shotsFired := currentPlayer.stats.shotsFired + 1,
                  eliminations := currentPlayer.stats.eliminations + (if elim then 1 else 0) } }
          { gameState with
            players := (gameState.players.set targetPlayer newTarget).set cpIdx newShooter,
            gameLog := gameState.gameLog
              ++ [shootEntry currentPlayer.username target.username (targetCell + 1)]
              ++ (if elim then [eliminateEntry target.username] else []) }
      else gameState
    else gameState
  | .emote message =>
    { gameState with gameLog := gameState.gameLog ++ [emoteEntry currentPlayer.username message] }
  | .unknownKind _ => gameState

/-- The `do { currentPlayer = (currentPlayer+1) % n } while (eliminated
&& some non-eliminated)` loop; `fuel` bounds the iteration count and is
always called with the player count, which suffices to reach a
non-eliminated index whenever one exists. -/
def advanceLoop (ps : List GamePlayer) (cp : Nat) (fuel : Nat) : Nat :=
  match fuel with
  | 0 => (cp + 1) % ps.length
  | f + 1 =>
    let cp2 := (cp + 1) % ps.length
    if (ps.getD cp2 dummyPlayer).eliminated && ps.any (fun p => !p.eliminated) then
      advanceLoop ps cp2 f
    else cp2

/-- Number of non-eliminated players. -/
def countActive (ps : List GamePlayer) : Nat :=
  (ps.filter (fun p => !p.eliminated)).length

/-- `processGameAction(room, action, data)`: applies one action to
`room.gameState`, then the common end-of-action sequence (end-of-game
check / history construction, else turn advancement).  The source reads
the state out of the room; the room plays no other role, so the state is
passed directly. -/
def processGameAction (gameState : GameState) (action : GameAction) : GameActionResult :=
  let gs1 := applyAction gameState action
  let activePlayers := gs1.players.filter (fun p => !p.eliminated)
  if activePlayers.length == 1 then
    let winner := activePlayers.headD dummyPlayer
    { gameState := gs1,
      gameEnded := true,
      history := some
        { winner := winner.username,
          eliminations := (gs1.gameLog.filter (fun l => l.type == "eliminate")).map
            (fun l => { eliminator := l.shooter, eliminated := l.player }),
          playerStats := gs1.players.map (fun p => (p.username, p.stats)) } }
  else
    { gameState := { gs1 with currentPlayer := advanceLoop gs1.players gs1.currentPlayer gs1.players.length },
      gameEnded := false,
      history := none }

/-!
## Server layer: the `rooms` map and the socket event handlers

A handler takes the current directory (association list in insertion
order, like a JS `Map`), the requesting connection id `sid`, and for the
room-creating handlers the freshly generated collision-free room id, and
returns the new directory together with the list of emitted pushes.
-/

/-- Where a push is delivered. -/
inductive EmitTarget where
  | toSelf
  | toRoom (roomId : String)
deriving DecidableEq, Repr

/-- The payloads the server emits.  Room-carrying payloads keep the full
`Room` record so that password stripping (or its absence) is visible. -/
inductive Payload where
  | roomCreated (room : Room)
  | playerJoined (room : Room)
  | roomUpdated (room : Room)
  | playerLeft (room : Room) (username : String)
  | gameStarted (gs : GameState)
  | gameStateUpdated (gs : GameState)
  | gameEndedPush (history : Option History)
  | emotePush (username : String) (emote : String)
  | errorPush (message : String)
  | leaveRoomSignal
deriving DecidableEq, Repr

/-- One emitted push. -/
structure Emit where
  target : EmitTarget
  payload : Payload
deriving DecidableEq, Repr

/-- `{...room, password: undefined}`. -/
def stripRoom (r : Room) : Room := { r with password := none }

/-- `rooms.get(roomId)`. -/
def lookupRoom (rooms : List (String × Room)) (roomId : String) : Option Room :=
  (rooms.find? (fun x => x.1 == roomId)).map (fun x => x.2)

/-- Replace the room stored under `roomId` (JS mutates the object held
in the map, keeping key order). -/
def setRoom (rooms : List (String × Room)) (roomId : String) (r : Room) :
    List (String × Room) :=
  rooms.map (fun x => if x.1 == roomId then (x.1, r) else x)

/-- The `createRoom` handler.  `newId` is the freshly generated room id;
`password || null` turns an absent or empty password into `null`. -/
def handleCreateRoom (rooms : List (String × Room)) (sid newId : String)
    (maxPlayers : Nat) (password : Option String) (username : String) :
    List (String × Room) × List Emit :=
  let pw : Option String := match password with
    | none => none
    | some s => if s = "" then none else some s
  let room : Room :=
    { id := newId, leader := sid, password := pw, maxPlayers := maxPlayers,
      isQuickMatch := false,
      players := [{ id := sid, username := username, ready := true, isLeader := true,
                    color := PLAYER_COLORS.getD 0 "" }],
      gameState := none, started := false }
  (rooms ++ [(newId, room)],
   [{ target := .toSelf, payload := .roomCreated (stripRoom room) }])

/-- The `joinRoom` handler with its four guarded error exits. -/
def handleJoinRoom (rooms : List (String × Room)) (sid roomId : String)
    (password : Option String) (username : String) :
    List (String × Room) × List Emit :=
  match lookupRoom rooms roomId with
  | none => (rooms, [{ target := .toSelf, payload := .errorPush "Room not found" }])
  | some room =>
    if (match room.password with
        | some pw => password != some pw
        | none => false) then
      (rooms, [{ target := .toSelf, payload := .errorPush "Incorrect password" }])
    else if room.players.length ≥ room.maxPlayers then
      (rooms, [{ target := .toSelf, payload := .errorPush "Room is full" }])
    else if room.started then
      (rooms, [{ target := .toSelf, payload := .errorPush "Game already in progress" }])
    else
      let room2 :=
        { room with players := room.players ++
            [{ id := sid, username := username, ready := false, isLeader := false,
               color := PLAYER_COLORS.getD (room.players.length % PLAYER_COLORS.length) "" }] }
      (setRoom rooms roomId room2,
       [{ target := .toRoom roomId, payload := .playerJoined (stripRoom room2) }])

/-- The `toggleReady` handler: flips the ready flag of the first roster
entry with the requester's id (the source mutates the object returned by
`find`). -/
def handleToggleReady (rooms : List (String × Room)) (sid roomId : String) :
    List (String × Room) × List Emit :=
  match lookupRoom rooms roomId with
  | none => (rooms, [])
  | some room =>
    match room.players.findIdx? (fun p => p.id == sid) with
    | none => (rooms, [])
    | some i =>
      let room2 := { room with players := listModify (fun p => { p with ready := !p.ready }) i room.players }
      (setRoom rooms roomId room2,
       [{ target := .toRoom roomId, payload := .roomUpdated (stripRoom room2) }])

/-- The `startGame` handler: leader-only; requires every player ready. -/
def handleStartGame (rooms : List (String × Room)) (sid roomId : String) :
    List (String × Room) × List Emit :=
  match lookupRoom rooms roomId with
  | none => (rooms, [])
  | some room =>
    if room.leader != sid then (rooms, [])
    else if room.players.all (fun p => p.ready) then
      let gs := initializeGameState room.players
      let room2 := { room with started := true, gameState := some gs }
      (setRoom rooms roomId room2,
       [{ target := .toRoom roomId, payload := .gameStarted gs }])
    else (rooms, [])

/-- The `quickMatch` flow (`findOrCreateQuickMatch`): join the first
open quick-match room — note the broadcast sends the room object
without stripping — or create a fresh capacity-4 quick-match room,
whose literal carries no password field at all. -/
def handleQuickMatch (rooms : List (String × Room)) (sid newId username : String) :
    List (String × Room) × List Emit :=
  match rooms.find? (fun x =>
      x.2.isQuickMatch && !x.2.started && x.2.players.length < x.2.maxPlayers) with
  | some (roomId, room) =>
    let room1 := { room with players := room.players ++
        [{ id := sid, username := username, ready := true, isLeader := false,
           color := PLAYER_COLORS.getD (room.players.length % PLAYER_COLORS.length) "" }] }
    if room1.players.length == room1.maxPlayers then
      let gs := initializeGameState room1.players
      let room2 := { room1 with started := true, gameState := some gs }
      (setRoom rooms roomId room2,
       [{ target := .toRoom roomId, payload := .playerJoined room1 },
        { target := .toRoom roomId, payload := .gameStarted gs }])
    else
      (setRoom rooms roomId room1,
       [{ target := .toRoom roomId, payload := .playerJoined room1 }])
  | none =>
    let room : Room :=
      { id := newId, leader := sid, password := none, maxPlayers := 4,
        isQuickMatch := true,
        players := [{ id := sid, username := username, ready := true, isLeader := true,
                      color := PLAYER_COLORS.getD 0 "" }],
        gameState := none, started := false }
    (rooms ++ [(newId, room)],
     [{ target := .toSelf, payload := .roomCreated room }])

/-- The `gameAction` handler: caller-side gating (room exists, game
started, sender is the current player), then `processGameAction`. -/
def handleGameAction (rooms : List (String × Room)) (sid roomId : String)
    (action : GameAction) : List (String × Room) × List Emit :=
  match lookupRoom rooms roomId with
  | none => (rooms, [])
  | some room =>
    if !room.started then (rooms, [])
    else
      match room.gameState with
      | none => (rooms, [])  -- a started room always carries a game state
      | some gs =>
        if (gs.players.getD gs.currentPlayer dummyPlayer).id != sid then (rooms, [])
        else
          let result := processGameAction gs action
          let room2 := { room with gameState := some result.gameState }
          (setRoom rooms roomId room2,
           if result.gameEnded then
             [{ target := .toRoom roomId, payload := .gameEndedPush result.history }]
           else
             [{ target := .toRoom roomId, payload := .gameStateUpdated result.gameState }])

/-- The `sendEmote` handler. -/
def handleSendEmote (rooms : List (String × Room)) (sid roomId emote : String) :
    List (String × Room) × List Emit :=
  match lookupRoom rooms roomId with
  | none => (rooms, [])
  | some room =>
    match room.players.find? (fun p => p.id == sid) with
    | none => (rooms, [])
    | some player =>
      (rooms, [{ target := .toRoom roomId, payload := .emotePush player.username emote }])

/-- The `leaveRoom` handler's loop over `rooms.entries()`: remove the
requester from every room containing them, delete emptied rooms,
transfer leadership to the first remaining roster entry, and broadcast
`playerLeft` with the password stripped. -/
def leaveRooms (sid : String) : List (String × Room) → List (String × Room) × List Emit
  | [] => ([], [])
  | (roomId, room) :: rest =>
    let (rest2, emits) := leaveRooms sid rest
    match room.players.findIdx? (fun p => p.id == sid) with
    | none => ((roomId, room) :: rest2, emits)
    | some i =>
      let username := (room.players.getD i dummyLobbyPlayer).username
      let players2 := room.players.eraseIdx i
      if players2.isEmpty then
        let room2 := { room with players := players2 }
        (rest2, { target := .toRoom roomId, payload := .playerLeft (stripRoom room2) username } :: emits)
      else
        let room2 :=
          if room.leader == sid then
            { room with players := listModify (fun p => { p with isLeader := true }) 0 players2,
                        leader := (players2.getD 0 dummyLobbyPlayer).id }
          else { room with players := players2 }
        ((roomId, room2) :: rest2,
         { target := .toRoom roomId, payload := .playerLeft (stripRoom room2) username } :: emits)

def handleLeaveRoom (rooms : List (String × Room)) (sid : String) :
    List (String × Room) × List Emit :=
  leaveRooms sid rooms

/-- The `disconnect` handler.  The source runs
`socket.emit('leaveRoom')`, which sends a `leaveRoom`-named event TO the
(already disconnected) client; it does not invoke the server-side
`leaveRoom` handler, so the room directory is left untouched. -/
def handleDisconnect (rooms : List (String × Room)) (_sid : String) :
    List (String × Room) × List Emit :=
  (rooms, [{ target := .toSelf, payload := .leaveRoomSignal }])

/-- One inbound client event with the payload fields the server reads. -/
inductive ClientEvent where
  | quickMatch (username : String)
  | createRoom (maxPlayers : Nat) (password : Option String) (username : String)
  | joinRoom (roomId : String) (password : Option String) (username : String)
  | toggleReady (roomId : String)
  | startGame (roomId : String)
  | gameAction (roomId : String) (action : GameAction)
  | sendEmote (roomId : String) (emote : String)
  | leaveRoom
  | disconnect
deriving DecidableEq, Repr

/-- Dispatch of one inbound event to its handler.  `newId` is the fresh
room id `generateRoomId()` would produce for the room-creating events. -/
def serverStep (rooms : List (String × Room)) (sid newId : String) (ev : ClientEvent) :
    List (String × Room) × List Emit :=
  match ev with
  | .quickMatch username => handleQuickMatch rooms sid newId username
  | .createRoom maxPlayers password username => handleCreateRoom rooms sid newId maxPlayers password username
  | .joinRoom roomId password username => handleJoinRoom rooms sid roomId password username
  | .toggleReady roomId => handleToggleReady rooms sid roomId
  | .startGame roomId => handleStartGame rooms sid roomId
  | .gameAction roomId action => handleGameAction rooms sid roomId action
  | .sendEmote roomId emote => handleSendEmote rooms sid roomId emote
  | .leaveRoom => handleLeaveRoom rooms sid
  | .disconnect => handleDisconnect rooms sid

/-- Run a trace of events (each tagged with its sender and the fresh id
available to it) from a given directory, collecting every push. -/
def runServerFrom (rooms : List (String × Room)) :
    List (String × String × ClientEvent) → List (String × Room) × List Emit
  | [] => (rooms, [])
  | (sid, newId, ev) :: rest =>
    let out := serverStep rooms sid newId ev
    let outRest := runServerFrom out.1 rest
    (outRest.1, out.2 ++ outRest.2)

/-!
## Example fixtures used by witnesses and counterexamples
-/

def exLobbyA : LobbyPlayer :=
  { id := "sA", username := "A", ready := true, isLeader := true, color := "#3B82F6" }

def exLobbyB : LobbyPlayer :=
  { id := "sB", username := "B", ready := true, isLeader := false, color := "#EF4444" }

def exLobbyC : LobbyPlayer :=
  { id := "sC", username := "C", ready := true, isLeader := false, color := "#10B981" }

/-- A freshly initialized two-player game. -/
def exFresh2 : GameState := initializeGameState [exLobbyA, exLobbyB]

/-- A freshly initialized three-player game. -/
def exFresh3 : GameState := initializeGameState [exLobbyA, exLobbyB, exLobbyC]


/-- A cell at max stage with a full clip. -/
def exCellMax : Cell := { stage := 6, isActive := true, bullets := 5 }

def exArmedA : GamePlayer :=
  { id := "sA", username := "A", color := "#3B82F6", eliminated := false, firstMove := false,
    cells := [exCellMax, { stage := 0, isActive := false, bullets := 0 }],
    stats := { shotsFired := 0, eliminations := 0, timesTargeted := 0 } }

def exFreshPlayerB : GamePlayer :=
  { id := "sB", username := "B", color := "#EF4444", eliminated := false, firstMove := true,
    cells := [{ stage := 0, isActive := false, bullets := 0 },
              { stage := 0, isActive := false, bullets := 0 }],
    stats := { shotsFired := 0, eliminations := 0, timesTargeted := 0 } }

/-- A two-player mid-game state: player A has cell 1 fully loaded and the
die shows 1, so a shoot at cell index 0 passes the precondition. -/
def exArmedState : GameState :=
  { currentPlayer := 0, players := [exArmedA, exFreshPlayerB],
    lastRoll := some 1, gameLog := [] }

/-- A lobby room with two members, led by `sA`. -/
def exRoom42 : Room :=
  { id := "42", leader := "sA", password := none, maxPlayers := 4, isQuickMatch := false,
    players := [exLobbyA, exLobbyB], gameState := none, started := false }

def exRooms : List (String × Room) := [("42", exRoom42)]

/-- Directory invariant: every quick-match room carries no password
(quick-match room literals have no password field). -/
def QuickInv (rooms : List (String × Room)) : Prop :=
  ∀ pr ∈ rooms, pr.2.isQuickMatch = true → pr.2.password = none

/-- The payload carries no set password (trivially so for payloads that
carry no Room). -/
def payloadPasswordFree : Payload → Prop
  | .roomCreated r => r.password = none
  | .playerJoined r => r.password = none
  | .roomUpdated r => r.password = none
  | .playerLeft r _ => r.password = none
  | _ => True

/-!
## List helper lemmas
-/

theorem getD_set_self (xs : List α) (i : Nat) (a d : α) (h : i < xs.length) :
    (xs.set i a).getD i d = a := by
  induction xs generalizing i with
  | nil => simp at h
  | cons x xs ih =>
    cases i with
    | zero => rfl
    | succ n => exact ih n (by simpa using h)

theorem getD_set_ne (xs : List α) {i j : Nat} (a d : α) (h : i ≠ j) :
    (xs.set i a).getD j d = xs.getD j d := by
  induction xs generalizing i j with
  | nil => rfl
  | cons x xs ih =>
    cases i with
    | zero =>
      cases j with
      | zero => exact absurd rfl h
      | succ m => rfl
    | succ n =>
      cases j with
      | zero => rfl
      | succ m => exact ih (fun hnm => h (by rw [hnm]))

theorem set_getD_self (xs : List α) (i : Nat) (d : α) (h : i < xs.length) :
    xs.set i (xs.getD i d) = xs := by
  induction xs generalizing i with
  | nil => rfl
  | cons x xs ih =>
    cases i with
    | zero => rfl
    | succ n => simpa using ih n (by simpa using h)

theorem length_set' (xs : List α) (i : Nat) (a : α) :
    (xs.set i a).length = xs.length := by
  simp

theorem length_listModify (f : α → α) (i : Nat) (xs : List α) :
    (listModify f i xs).length = xs.length := by
  induction xs generalizing i with
  | nil => cases i <;> rfl
  | cons x xs ih =>
    cases i with
    | zero => rfl
    | succ n => simpa [listModify] using ih n

theorem getD_listModify_self (f : α → α) (xs : List α) (i : Nat) (d : α) (h : i < xs.length) :
    (listModify f i xs).getD i d = f (xs.getD i d) := by
  induction xs generalizing i with
  | nil => simp at h
  | cons x xs ih =>
    cases i with
    | zero => rfl
    | succ n => exact ih n (by simpa using h)

theorem getD_listModify_ne (f : α → α) (xs : List α) {i j : Nat} (d : α) (h : i ≠ j) :
    (listModify f i xs).getD j d = xs.getD j d := by
  induction xs generalizing i j with
  | nil => cases i <;> rfl
  | cons x xs ih =>
    cases i with
    | zero =>
      cases j with
      | zero => exact absurd rfl h
      | succ m => rfl
    | succ n =>
      cases j with
      | zero => rfl
      | succ m => exact ih (fun hnm => h (by rw [hnm]))

theorem take_len_append_one (l : List α) (x : α) (rest : List α) :
    ((l ++ x :: rest).take (l.length + 1)) = l ++ [x] := by
  induction l with
  | nil => simp
  | cons y l ih => simpa using ih

theorem mem_mapIdxFrom {f : Nat → α → β} {P : β → Prop}
    (hf : ∀ i x, P (f i x)) :
    ∀ (i : Nat) (xs : List α), ∀ b ∈ mapIdxFrom f i xs, P b := by
  intro i xs
  induction xs generalizing i with
  | nil => intro b hb; simp [mapIdxFrom] at hb
  | cons x xs ih =>
    intro b hb
    rcases (by simpa [mapIdxFrom] using hb : b = f i x ∨ b ∈ mapIdxFrom f (i + 1) xs) with h | h
    · exact h ▸ hf i x
    · exact ih (i + 1) b h

/-!
## Engine lemmas: the end-of-action sequence
-/

theorem applyAction_currentPlayer (s : GameState) (a : GameAction) :
    (applyAction s a).currentPlayer = s.currentPlayer := by
  cases a <;> simp only [applyAction] <;> (repeat' split) <;> rfl

theorem processGameAction_players (s : GameState) (a : GameAction) :
    (processGameAction s a).gameState.players = (applyAction s a).players := by
  simp only [processGameAction]
  split <;> rfl

theorem processGameAction_gameLog (s : GameState) (a : GameAction) :
    (processGameAction s a).gameState.gameLog = (applyAction s a).gameLog := by
  simp only [processGameAction]
  split <;> rfl

theorem processGameAction_lastRoll (s : GameState) (a : GameAction) :
    (processGameAction s a).gameState.lastRoll = (applyAction s a).lastRoll := by
  simp only [processGameAction]
  split <;> rfl

theorem processGameAction_ended_iff (s : GameState) (a : GameAction) :
    (processGameAction s a).gameEnded = true ↔
      countActive (processGameAction s a).gameState.players = 1 := by
  simp only [processGameAction]
  split
  · next h =>
    simp only [beq_iff_eq] at h
    simp [countActive, h]
  · next h =>
    simp only [beq_iff_eq] at h
    simp [countActive, h]

theorem processGameAction_ended_currentPlayer (s : GameState) (a : GameAction)
    (h : (processGameAction s a).gameEnded = true) :
    (processGameAction s a).gameState.currentPlayer = s.currentPlayer := by
  revert h
  simp only [processGameAction]
  split
  · intro _; exact applyAction_currentPlayer s a
  · intro h; exact absurd h (by simp)

theorem processGameAction_advance_currentPlayer (s : GameState) (a : GameAction)
    (h : (processGameAction s a).gameEnded = false) :
    (processGameAction s a).gameState.currentPlayer =
      advanceLoop (applyAction s a).players s.currentPlayer (applyAction s a).players.length := by
  revert h
  simp only [processGameAction]
  split
  · intro h; exact absurd h (by simp)
  · intro _
    simp [applyAction_currentPlayer]

/-!
## Shoot and roll branch characterizations
-/

theorem applyAction_shoot_hit (s : GameState) (tp tc : Nat)
    (hne : (tp == s.currentPlayer) = false)
    (hroll : s.lastRoll = some (tc + 1))
    (hbul : 0 < ((s.players.getD s.currentPlayer dummyPlayer).cells.getD tc dummyCell).bullets) :
    applyAction s (.shoot tp tc) =
    { s with
      players :=
        (s.players.set tp
          { s.players.getD tp dummyPlayer with
            cells := (s.players.getD tp dummyPlayer).cells.set tc { stage := 0, isActive := false, bullets := 0 },
            eliminated := ((s.players.getD tp dummyPlayer).cells.set tc { stage := 0, isActive := false, bullets := 0 }).all (fun c => !c.isActive),
            stats := { (s.players.getD tp dummyPlayer).stats with
              timesTargeted := (s.players.getD tp dummyPlayer).stats.timesTargeted + 1 } }).set s.currentPlayer
          { s.players.getD s.currentPlayer dummyPlayer with
            cells := (s.players.getD s.currentPlayer dummyPlayer).cells.set tc
              { (s.players.getD s.currentPlayer dummyPlayer).cells.getD tc dummyCell with
                bullets := ((s.players.getD s.currentPlayer dummyPlayer).cells.getD tc dummyCell).bullets - 1 },
            stats := { (s.players.getD s.currentPlayer dummyPlayer).stats with
              shotsFired := (s.players.getD s.currentPlayer dummyPlayer).stats.shotsFired + 1,
              eliminations := (s.players.getD s.currentPlayer dummyPlayer).stats.eliminations +
                (if ((s.players.getD tp dummyPlayer).cells.set tc { stage := 0, isActive := false, bullets := 0 }).all (fun c => !c.isActive) then 1 else 0) } },
      gameLog := s.gameLog
        ++ [shootEntry (s.players.getD s.currentPlayer dummyPlayer).username (s.players.getD tp dummyPlayer).username (tc + 1)]
        ++ (if ((s.players.getD tp dummyPlayer).cells.set tc { stage := 0, isActive := false, bullets := 0 }).all (fun c => !c.isActive) then [eliminateEntry (s.players.getD tp dummyPlayer).username] else []) } := by
  have h1 : (s.lastRoll == some (tc + 1)) = true := by rw [hroll]; exact beq_self_eq_true _
  simp only [applyAction, h1, hne, if_true, if_false, Bool.false_eq_true, hbul, if_pos]

theorem applyAction_shoot_self (s : GameState) (tc : Nat)
    (hroll : s.lastRoll = some (tc + 1))
    (hbul : 0 < ((s.players.getD s.currentPlayer dummyPlayer).cells.getD tc dummyCell).bullets) :
    applyAction s (.shoot s.currentPlayer tc) =
    { s with
      players := s.players.set s.currentPlayer
        { s.players.getD s.currentPlayer dummyPlayer with
          cells := (s.players.getD s.currentPlayer dummyPlayer).cells.set tc { stage := 0, isActive := false, bullets := 0 },
          eliminated := ((s.players.getD s.currentPlayer dummyPlayer).cells.set tc { stage := 0, isActive := false, bullets := 0 }).all (fun c => !c.isActive),
          stats :=
            { shotsFired := (s.players.getD s.currentPlayer dummyPlayer).stats.shotsFired + 1,
              eliminations := (s.players.getD s.currentPlayer dummyPlayer).stats.eliminations +
                (if ((s.players.getD s.currentPlayer dummyPlayer).cells.set tc { stage := 0, isActive := false, bullets := 0 }).all (fun c => !c.isActive) then 1 else 0),
              timesTargeted := (s.players.getD s.currentPlayer dummyPlayer).stats.timesTargeted + 1 } },
      gameLog := s.gameLog
        ++ [shootEntry (s.players.getD s.currentPlayer dummyPlayer).username (s.players.getD s.currentPlayer dummyPlayer).username (tc + 1)]
        ++ (if ((s.players.getD s.currentPlayer dummyPlayer).cells.set tc { stage := 0, isActive := false, bullets := 0 }).all (fun c => !c.isActive) then [eliminateEntry (s.players.getD s.currentPlayer dummyPlayer).username] else []) } := by
  have h1 : (s.lastRoll == some (tc + 1)) = true := by rw [hroll]; exact beq_self_eq_true _
  simp only [applyAction, h1, beq_self_eq_true, if_true, hbul, if_pos]

theorem applyAction_shoot_miss (s : GameState) (tp tc : Nat)
    (h : s.lastRoll ≠ some (tc + 1) ∨
      ((s.players.getD s.currentPlayer dummyPlayer).cells.getD tc dummyCell).bullets = 0) :
    applyAction s (.shoot tp tc) = s := by
  rcases h with h | h
  · have h1 : (s.lastRoll == some (tc + 1)) = false := by
      cases hE : s.lastRoll == some (tc + 1)
      · rfl
      · exact absurd (eq_of_beq hE) h
    simp only [applyAction, h1, Bool.false_eq_true, if_false]
  · by_cases h1 : (s.lastRoll == some (tc + 1)) = true
    · simp only [applyAction, h1, if_true, h, Nat.lt_irrefl, if_false]
    · have h1' : (s.lastRoll == some (tc + 1)) = false := by
        revert h1; cases s.lastRoll == some (tc + 1) <;> simp
      simp only [applyAction, h1', Bool.false_eq_true, if_false]

theorem ite_firstMove_cells (A : GamePlayer) (b : Bool) :
    (if b then { A with firstMove := false } else A).cells = A.cells := by
  cases b <;> rfl

theorem ite_firstMove_username (A : GamePlayer) (b : Bool) :
    (if b then { A with firstMove := false } else A).username = A.username := by
  cases b <;> rfl

theorem applyAction_roll_firstMove (s : GameState) (v : Nat)
    (hc1 : ((s.players.getD s.currentPlayer dummyPlayer).firstMove && (v != 1)) = true) :
    applyAction s (.roll v) =
      { s with
        lastRoll := some v
        gameLog := s.gameLog ++ [firstMoveEntry (s.players.getD s.currentPlayer dummyPlayer).username] } := by
  simp only [applyAction, hc1, if_true]

theorem applyAction_roll_activate (s : GameState) (v : Nat)
    (hc1 : ((s.players.getD s.currentPlayer dummyPlayer).firstMove && (v != 1)) = false)
    (hact : (((s.players.getD s.currentPlayer dummyPlayer).cells.getD (v - 1) dummyCell).isActive) = false) :
    applyAction s (.roll v) =
      { s with
        lastRoll := some v
        players := s.players.set s.currentPlayer
          { (if (s.players.getD s.currentPlayer dummyPlayer).firstMove && (v == 1) then
               { s.players.getD s.currentPlayer dummyPlayer with firstMove := false }
             else s.players.getD s.currentPlayer dummyPlayer) with
            cells := (s.players.getD s.currentPlayer dummyPlayer).cells.set (v - 1)
              { stage := 1, isActive := true, bullets := 0 } }
        gameLog := s.gameLog ++ [activateEntry (s.players.getD s.currentPlayer dummyPlayer).username ((v - 1) + 1)] } := by
  simp only [applyAction, hc1, Bool.false_eq_true, if_false, ite_firstMove_cells,
    ite_firstMove_username, hact, Bool.not_false, if_true]

theorem applyAction_roll_bump (s : GameState) (v : Nat)
    (hc1 : ((s.players.getD s.currentPlayer dummyPlayer).firstMove && (v != 1)) = false)
    (hact : (((s.players.getD s.currentPlayer dummyPlayer).cells.getD (v - 1) dummyCell).isActive) = true)
    (hlt : ((s.players.getD s.currentPlayer dummyPlayer).cells.getD (v - 1) dummyCell).stage < 6)
    (hne6 : (((s.players.getD s.currentPlayer dummyPlayer).cells.getD (v - 1) dummyCell).stage + 1 == 6) = false) :
    applyAction s (.roll v) =
      { s with
        lastRoll := some v
        players := s.players.set s.currentPlayer
          { (if (s.players.getD s.currentPlayer dummyPlayer).firstMove && (v == 1) then
               { s.players.getD s.currentPlayer dummyPlayer with firstMove := false }
             else s.players.getD s.currentPlayer dummyPlayer) with
            cells := (s.players.getD s.currentPlayer dummyPlayer).cells.set (v - 1)
              { (s.players.getD s.currentPlayer dummyPlayer).cells.getD (v - 1) dummyCell with
                stage := ((s.players.getD s.currentPlayer dummyPlayer).cells.getD (v - 1) dummyCell).stage + 1 } } } := by
  simp only [applyAction, hc1, Bool.false_eq_true, if_false, ite_firstMove_cells,
    ite_firstMove_username, hact, Bool.not_true, hlt, if_true, hne6]

theorem applyAction_roll_max (s : GameState) (v : Nat)
    (hc1 : ((s.players.getD s.currentPlayer dummyPlayer).firstMove && (v != 1)) = false)
    (hact : (((s.players.getD s.currentPlayer dummyPlayer).cells.getD (v - 1) dummyCell).isActive) = true)
    (hlt : ((s.players.getD s.currentPlayer dummyPlayer).cells.getD (v - 1) dummyCell).stage < 6)
    (heq6 : (((s.players.getD s.currentPlayer dummyPlayer).cells.getD (v - 1) dummyCell).stage + 1 == 6) = true) :
    applyAction s (.roll v) =
      { s with
        lastRoll := some v
        players := s.players.set s.currentPlayer
          { (if (s.players.getD s.currentPlayer dummyPlayer).firstMove && (v == 1) then
               { s.players.getD s.currentPlayer dummyPlayer with firstMove := false }
             else s.players.getD s.currentPlayer dummyPlayer) with
            cells := (s.players.getD s.currentPlayer dummyPlayer).cells.set (v - 1)
              { (s.players.getD s.currentPlayer dummyPlayer).cells.getD (v - 1) dummyCell with
                stage := ((s.players.getD s.currentPlayer dummyPlayer).cells.getD (v - 1) dummyCell).stage + 1
                bullets := 5 } }
        gameLog := s.gameLog ++ [maxLevelEntry (s.players.getD s.currentPlayer dummyPlayer).username ((v - 1) + 1)] } := by
  simp only [applyAction, hc1, Bool.false_eq_true, if_false, ite_firstMove_cells,
    ite_firstMove_username, hact, Bool.not_true, hlt, if_true, heq6]

theorem applyAction_roll_reload (s : GameState) (v : Nat)
    (hc1 : ((s.players.getD s.currentPlayer dummyPlayer).firstMove && (v != 1)) = false)
    (hact : (((s.players.getD s.currentPlayer dummyPlayer).cells.getD (v - 1) dummyCell).isActive) = true)
    (hge : ¬ ((s.players.getD s.currentPlayer dummyPlayer).cells.getD (v - 1) dummyCell).stage < 6)
    (h0 : (((s.players.getD s.currentPlayer dummyPlayer).cells.getD (v - 1) dummyCell).bullets == 0) = true) :
    applyAction s (.roll v) =
      { s with
        lastRoll := some v
        players := s.players.set s.currentPlayer
          { (if (s.players.getD s.currentPlayer dummyPlayer).firstMove && (v == 1) then
               { s.players.getD s.currentPlayer dummyPlayer with firstMove := false }
             else s.players.getD s.currentPlayer dummyPlayer) with
            cells := (s.players.getD s.currentPlayer dummyPlayer).cells.set (v - 1)
              { (s.players.getD s.currentPlayer dummyPlayer).cells.getD (v - 1) dummyCell with
                bullets := 5 } }
        gameLog := s.gameLog ++ [reloadEntry (s.players.getD s.currentPlayer dummyPlayer).username ((v - 1) + 1)] } := by
  simp only [applyAction, hc1, Bool.false_eq_true, if_false, ite_firstMove_cells,
    ite_firstMove_username, hact, Bool.not_true, hge, h0, if_true]

theorem applyAction_roll_noop (s : GameState) (v : Nat)
    (hc1 : ((s.players.getD s.currentPlayer dummyPlayer).firstMove && (v != 1)) = false)
    (hact : (((s.players.getD s.currentPlayer dummyPlayer).cells.getD (v - 1) dummyCell).isActive) = true)
    (hge : ¬ ((s.players.getD s.currentPlayer dummyPlayer).cells.getD (v - 1) dummyCell).stage < 6)
    (h0 : (((s.players.getD s.currentPlayer dummyPlayer).cells.getD (v - 1) dummyCell).bullets == 0) = false) :
    applyAction s (.roll v) =
      { s with
        lastRoll := some v
        players := s.players.set s.currentPlayer
          (if (s.players.getD s.currentPlayer dummyPlayer).firstMove && (v == 1) then
             { s.players.getD s.currentPlayer dummyPlayer with firstMove := false }
           else s.players.getD s.currentPlayer dummyPlayer) } := by
  simp only [applyAction, hc1, Bool.false_eq_true, if_false, ite_firstMove_cells,
    ite_firstMove_username, hact, Bool.not_true, hge, h0, if_true]

/-!
## Turn-advancement loop lemmas
-/

theorem advanceLoop_lt (ps : List GamePlayer) (h : 0 < ps.length) (fuel cp : Nat) :
    advanceLoop ps cp fuel < ps.length := by
  induction fuel generalizing cp with
  | zero => exact Nat.mod_lt _ h
  | succ f ih =>
    simp only [advanceLoop]
    split
    · exact ih _
    · exact Nat.mod_lt _ h

theorem any_not_elim_of_getD (ps : List GamePlayer) (j : Nat) (hj : j < ps.length)
    (h : (ps.getD j dummyPlayer).eliminated = false) :
    ps.any (fun p => !p.eliminated) = true := by
  induction ps generalizing j with
  | nil => simp at hj
  | cons p ps ih =>
    cases j with
    | zero =>
      simp only [List.getD_cons_zero] at h
      simp [h]
    | succ m =>
      simp only [List.getD_cons_succ] at h
      have := ih m (by simpa using hj) h
      simp [List.any_cons, this]

theorem advanceLoop_not_elim (ps : List GamePlayer) (fuel : Nat) :
    ∀ (cp k : Nat), k ≤ fuel → ((cp + 1 + k) % ps.length) < ps.length →
      (ps.getD ((cp + 1 + k) % ps.length) dummyPlayer).eliminated = false →
      (ps.getD (advanceLoop ps cp fuel) dummyPlayer).eliminated = false := by
  induction fuel with
  | zero =>
    intro cp k hk _ h
    have hk0 : k = 0 := Nat.le_zero.mp hk
    subst hk0
    simpa [advanceLoop] using h
  | succ f ih =>
    intro cp k hk hlt h
    by_cases helim : (ps.getD ((cp + 1) % ps.length) dummyPlayer).eliminated = true
    · have hany : ps.any (fun p => !p.eliminated) = true :=
        any_not_elim_of_getD ps _ hlt h
      have hstep : advanceLoop ps cp (f + 1) = advanceLoop ps ((cp + 1) % ps.length) f := by
        simp only [advanceLoop, helim, hany, Bool.and_self, if_pos]
      rw [hstep]
      cases k with
      | zero =>
        rw [Nat.add_zero] at h
        rw [h] at helim
        exact absurd helim (by decide)
      | succ q =>
        have hmod : (((cp + 1) % ps.length) + 1 + q) % ps.length = (cp + 1 + (q + 1)) % ps.length := by
          rw [Nat.add_assoc]
          rw [Nat.mod_add_mod (cp + 1) ps.length (1 + q)]
          ring_nf
        exact ih ((cp + 1) % ps.length) q (Nat.le_of_succ_le_succ hk)
          (by rw [hmod]; exact hlt) (by rw [hmod]; exact h)
    · have helim' : (ps.getD ((cp + 1) % ps.length) dummyPlayer).eliminated = false := by
        revert helim; cases (ps.getD ((cp + 1) % ps.length) dummyPlayer).eliminated <;> simp
      have hstep : advanceLoop ps cp (f + 1) = (cp + 1) % ps.length := by
        simp only [advanceLoop, helim', Bool.false_and, if_neg, Bool.false_eq_true,
          not_false_eq_true]
      rw [hstep]
      exact helim'

theorem exists_nonElim_index (ps : List GamePlayer) (h : 1 ≤ countActive ps) :
    ∃ j, j < ps.length ∧ (ps.getD j dummyPlayer).eliminated = false := by
  induction ps with
  | nil => simp [countActive] at h
  | cons p ps ih =>
    by_cases hp : p.eliminated = false
    · exact ⟨0, by simp, by simpa using hp⟩
    · have hp' : p.eliminated = true := by
        revert hp; cases p.eliminated <;> simp
      have hcount : countActive (p :: ps) = countActive ps := by
        simp [countActive, List.filter_cons, hp']
      obtain ⟨j, hj, hje⟩ := ih (by rw [hcount] at h; exact h)
      exact ⟨j + 1, by simpa using hj, by simpa using hje⟩

theorem advance_lands_active (ps : List GamePlayer) (cp : Nat) (h2 : 2 ≤ countActive ps) :
    (ps.getD (advanceLoop ps cp ps.length) dummyPlayer).eliminated = false := by
  have hlen : 0 < ps.length := by
    have := ps.length_filter_le (fun p => !p.eliminated)
    simp only [countActive] at h2
    omega
  obtain ⟨j, hj, hje⟩ := exists_nonElim_index ps (by omega)
  have hc : (cp + 1) % ps.length < ps.length := Nat.mod_lt _ hlen
  have hkn : (j + ps.length - (cp + 1) % ps.length) % ps.length < ps.length := Nat.mod_lt _ hlen
  have hmod : (cp + 1 + (j + ps.length - (cp + 1) % ps.length) % ps.length) % ps.length = j := by
    rw [← Nat.mod_add_mod (cp + 1) ps.length _]
    rw [Nat.add_mod_mod]
    rw [show (cp + 1) % ps.length + (j + ps.length - (cp + 1) % ps.length) = j + ps.length from by omega]
    rw [Nat.add_mod_right]
    exact Nat.mod_eq_of_lt hj
  exact advanceLoop_not_elim ps ps.length cp _
    (Nat.le_of_lt hkn) (by rw [hmod]; exact hj) (by rw [hmod]; exact hje)

/-- C7: after any action, `gameEnded` is `true` iff exactly one player is
non-eliminated; an ending action never advances `currentPlayer`; and a
non-ending action with at least two players remaining leaves
`currentPlayer` on an in-range, non-eliminated player. -/
theorem game_end_and_turn_advance_spec (s : GameState) (a : GameAction) :
    ((processGameAction s a).gameEnded = true ↔
      countActive (processGameAction s a).gameState.players = 1)
    ∧ ((processGameAction s a).gameEnded = true →
        (processGameAction s a).gameState.currentPlayer = s.currentPlayer)
    ∧ (2 ≤ countActive (processGameAction s a).gameState.players →
        (processGameAction s a).gameState.currentPlayer <
            (processGameAction s a).gameState.players.length
        ∧ ((processGameAction s a).gameState.players.getD
             (processGameAction s a).gameState.currentPlayer dummyPlayer).eliminated = false) := by
  refine ⟨processGameAction_ended_iff s a, processGameAction_ended_currentPlayer s a, ?_⟩
  intro h2
  have hne : (processGameAction s a).gameEnded = false := by
    cases hE : (processGameAction s a).gameEnded
    · rfl
    · have := (processGameAction_ended_iff s a).mp hE
      omega
  have hp := processGameAction_players s a
  have hlen : 0 < (applyAction s a).players.length := by
    have hfl := (applyAction s a).players.length_filter_le (fun p => !p.eliminated)
    rw [hp] at h2
    simp only [countActive] at h2
    omega
  rw [processGameAction_advance_currentPlayer s a hne, hp]
  constructor
  · exact advanceLoop_lt _ hlen _ _
  · exact advance_lands_active _ _ (by rw [hp] at h2; exact h2)

/-- Witness for C7 at a concrete three-player game and a concrete roll. -/
theorem game_end_and_turn_advance_spec_witness :
    2 ≤ countActive (processGameAction exFresh3 (GameAction.roll 1)).gameState.players ∧
    ((processGameAction exFresh3 (GameAction.roll 1)).gameState.players.getD
       (processGameAction exFresh3 (GameAction.roll 1)).gameState.currentPlayer
       dummyPlayer).eliminated = false :=
  ⟨by decide, ((game_end_and_turn_advance_spec exFresh3 (GameAction.roll 1)).2.2 (by decide)).2⟩
theorem applyAction_roll_lastRoll (s : GameState) (v : Nat) :
    (applyAction s (.roll v)).lastRoll = some v := by
  simp only [applyAction]
  repeat' split
  all_goals rfl

theorem bne_true_of_ne {v w : Nat} (h : v ≠ w) : (v != w) = true := by
  simp [bne_iff_ne, h]

/-- C6: full case analysis of the `roll` action: `lastRoll` is recorded;
a first-move roll of anything but 1 only logs; a first-move roll of 1
clears `firstMove`; then the rolled cell is activated, upgraded
(reaching stage 6 loads 5 bullets), reloaded when empty at stage 6, or
left untouched when fully loaded; players other than the roller never
change. -/
theorem roll_spec (s : GameState) (v : Nat)
    (hcp : s.currentPlayer < s.players.length)
    (hv1 : 1 ≤ v)
    (hvN : v ≤ (s.players.getD s.currentPlayer dummyPlayer).cells.length) :
    (processGameAction s (.roll v)).gameState.lastRoll = some v
    ∧ ((s.players.getD s.currentPlayer dummyPlayer).firstMove = true → v ≠ 1 →
        (processGameAction s (.roll v)).gameState.players = s.players ∧
        (processGameAction s (.roll v)).gameState.gameLog =
          s.gameLog ++ [firstMoveEntry (s.players.getD s.currentPlayer dummyPlayer).username])
    ∧ ((s.players.getD s.currentPlayer dummyPlayer).firstMove = true → v = 1 →
        ((processGameAction s (.roll v)).gameState.players.getD s.currentPlayer dummyPlayer).firstMove = false)
    ∧ (((s.players.getD s.currentPlayer dummyPlayer).firstMove = false ∨ v = 1) →
        ((s.players.getD s.currentPlayer dummyPlayer).cells.getD (v - 1) dummyCell).isActive = false →
        ((processGameAction s (.roll v)).gameState.players.getD s.currentPlayer dummyPlayer).cells.getD (v - 1) dummyCell
            = { stage := 1, isActive := true, bullets := 0 } ∧
        (processGameAction s (.roll v)).gameState.gameLog =
          s.gameLog ++ [activateEntry (s.players.getD s.currentPlayer dummyPlayer).username v])
    ∧ (((s.players.getD s.currentPlayer dummyPlayer).firstMove = false ∨ v = 1) →
        ((s.players.getD s.currentPlayer dummyPlayer).cells.getD (v - 1) dummyCell).isActive = true →
        ((s.players.getD s.currentPlayer dummyPlayer).cells.getD (v - 1) dummyCell).stage < 6 →
        ((s.players.getD s.currentPlayer dummyPlayer).cells.getD (v - 1) dummyCell).stage + 1 ≠ 6 →
        ((processGameAction s (.roll v)).gameState.players.getD s.currentPlayer dummyPlayer).cells.getD (v - 1) dummyCell
            = { (s.players.getD s.currentPlayer dummyPlayer).cells.getD (v - 1) dummyCell with
                stage := ((s.players.getD s.currentPlayer dummyPlayer).cells.getD (v - 1) dummyCell).stage + 1 } ∧
        (processGameAction s (.roll v)).gameState.gameLog = s.gameLog)
    ∧ (((s.players.getD s.currentPlayer dummyPlayer).firstMove = false ∨ v = 1) →
        ((s.players.getD s.currentPlayer dummyPlayer).cells.getD (v - 1) dummyCell).isActive = true →
        ((s.players.getD s.currentPlayer dummyPlayer).cells.getD (v - 1) dummyCell).stage + 1 = 6 →
        ((processGameAction s (.roll v)).gameState.players.getD s.currentPlayer dummyPlayer).cells.getD (v - 1) dummyCell
            = { (s.players.getD s.currentPlayer dummyPlayer).cells.getD (v - 1) dummyCell with
                stage := 6, bullets := 5 } ∧
        (processGameAction s (.roll v)).gameState.gameLog =
          s.gameLog ++ [maxLevelEntry (s.players.getD s.currentPlayer dummyPlayer).username v])
    ∧ (((s.players.getD s.currentPlayer dummyPlayer).firstMove = false ∨ v = 1) →
        ((s.players.getD s.currentPlayer dummyPlayer).cells.getD (v - 1) dummyCell).isActive = true →
        ¬ ((s.players.getD s.currentPlayer dummyPlayer).cells.getD (v - 1) dummyCell).stage < 6 →
        ((s.players.getD s.currentPlayer dummyPlayer).cells.getD (v - 1) dummyCell).bullets = 0 →
        ((processGameAction s (.roll v)).gameState.players.getD s.currentPlayer dummyPlayer).cells.getD (v - 1) dummyCell
            = { (s.players.getD s.currentPlayer dummyPlayer).cells.getD (v - 1) dummyCell with bullets := 5 } ∧
        (processGameAction s (.roll v)).gameState.gameLog =
          s.gameLog ++ [reloadEntry (s.players.getD s.currentPlayer dummyPlayer).username v])
    ∧ (((s.players.getD s.currentPlayer dummyPlayer).firstMove = false ∨ v = 1) →
        ((s.players.getD s.currentPlayer dummyPlayer).cells.getD (v - 1) dummyCell).isActive = true →
        ¬ ((s.players.getD s.currentPlayer dummyPlayer).cells.getD (v - 1) dummyCell).stage < 6 →
        ((s.players.getD s.currentPlayer dummyPlayer).cells.getD (v - 1) dummyCell).bullets ≠ 0 →
        ((processGameAction s (.roll v)).gameState.players.getD s.currentPlayer dummyPlayer).cells
            = (s.players.getD s.currentPlayer dummyPlayer).cells ∧
        (processGameAction s (.roll v)).gameState.gameLog = s.gameLog)
    ∧ (∀ j, j ≠ s.currentPlayer →
        (processGameAction s (.roll v)).gameState.players.getD j dummyPlayer = s.players.getD j dummyPlayer) := by
  have hvm : v - 1 + 1 = v := by omega
  have hcells : v - 1 < (s.players.getD s.currentPlayer dummyPlayer).cells.length := by omega
  refine ⟨?_, ?_, ?_, ?_, ?_, ?_, ?_, ?_, ?_⟩
  · rw [processGameAction_lastRoll]; exact applyAction_roll_lastRoll s v
  · intro hf hv
    have hc1 : ((s.players.getD s.currentPlayer dummyPlayer).firstMove && (v != 1)) = true := by
      rw [hf, bne_true_of_ne hv]; rfl
    rw [processGameAction_players, processGameAction_gameLog, applyAction_roll_firstMove s v hc1]
    exact ⟨rfl, rfl⟩
  · intro hf hv
    subst hv
    have hc1 : ((s.players.getD s.currentPlayer dummyPlayer).firstMove && ((1 : Nat) != 1)) = false := by
      simp
    have hc2 : ((s.players.getD s.currentPlayer dummyPlayer).firstMove && ((1 : Nat) == 1)) = true := by
      rw [hf]; rfl
    rw [processGameAction_players]
    by_cases hact : ((s.players.getD s.currentPlayer dummyPlayer).cells.getD (1 - 1) dummyCell).isActive = true
    · by_cases hlt : ((s.players.getD s.currentPlayer dummyPlayer).cells.getD (1 - 1) dummyCell).stage < 6
      · by_cases h6 : (((s.players.getD s.currentPlayer dummyPlayer).cells.getD (1 - 1) dummyCell).stage + 1 == 6) = true
        · rw [applyAction_roll_max s 1 hc1 hact hlt h6]
          rw [getD_set_self _ _ _ _ hcp]
          simp only [hc2, if_true]
        · have h6' : (((s.players.getD s.currentPlayer dummyPlayer).cells.getD (1 - 1) dummyCell).stage + 1 == 6) = false := by
            revert h6; cases ((s.players.getD s.currentPlayer dummyPlayer).cells.getD (1 - 1) dummyCell).stage + 1 == 6 <;> simp
          rw [applyAction_roll_bump s 1 hc1 hact hlt h6']
          rw [getD_set_self _ _ _ _ hcp]
          simp only [hc2, if_true]
      · by_cases h0 : (((s.players.getD s.currentPlayer dummyPlayer).cells.getD (1 - 1) dummyCell).bullets == 0) = true
        · rw [applyAction_roll_reload s 1 hc1 hact hlt h0]
          rw [getD_set_self _ _ _ _ hcp]
          simp only [hc2, if_true]
        · have h0' : (((s.players.getD s.currentPlayer dummyPlayer).cells.getD (1 - 1) dummyCell).bullets == 0) = false := by
            revert h0; cases ((s.players.getD s.currentPlayer dummyPlayer).cells.getD (1 - 1) dummyCell).bullets == 0 <;> simp
          rw [applyAction_roll_noop s 1 hc1 hact hlt h0']
          rw [getD_set_self _ _ _ _ hcp]
          simp only [hc2, if_true]
    · have hact' : ((s.players.getD s.currentPlayer dummyPlayer).cells.getD (1 - 1) dummyCell).isActive = false := by
        revert hact; cases ((s.players.getD s.currentPlayer dummyPlayer).cells.getD (1 - 1) dummyCell).isActive <;> simp
      rw [applyAction_roll_activate s 1 hc1 hact']
      rw [getD_set_self _ _ _ _ hcp]
      simp only [hc2, if_true]
  · intro hfm hact
    have hc1 : ((s.players.getD s.currentPlayer dummyPlayer).firstMove && (v != 1)) = false := by
      rcases hfm with h | h
      · rw [h]; rfl
      · subst h; simp
    rw [processGameAction_players, processGameAction_gameLog, applyAction_roll_activate s v hc1 hact]
    constructor
    · rw [getD_set_self _ _ _ _ hcp]
      exact getD_set_self _ _ _ _ hcells
    · rw [hvm]
  · intro hfm hact hlt hne6
    have hc1 : ((s.players.getD s.currentPlayer dummyPlayer).firstMove && (v != 1)) = false := by
      rcases hfm with h | h
      · rw [h]; rfl
      · subst h; simp
    have h6' : (((s.players.getD s.currentPlayer dummyPlayer).cells.getD (v - 1) dummyCell).stage + 1 == 6) = false := by
      rw [beq_eq_false_iff_ne]; exact hne6
    rw [processGameAction_players, processGameAction_gameLog, applyAction_roll_bump s v hc1 hact hlt h6']
    constructor
    · rw [getD_set_self _ _ _ _ hcp]
      exact getD_set_self _ _ _ _ hcells
    · rfl
  · intro hfm hact heq6
    have hc1 : ((s.players.getD s.currentPlayer dummyPlayer).firstMove && (v != 1)) = false := by
      rcases hfm with h | h
      · rw [h]; rfl
      · subst h; simp
    have hlt : ((s.players.getD s.currentPlayer dummyPlayer).cells.getD (v - 1) dummyCell).stage < 6 := by omega
    have h6 : (((s.players.getD s.currentPlayer dummyPlayer).cells.getD (v - 1) dummyCell).stage + 1 == 6) = true := by
      rw [beq_iff_eq]; exact heq6
    rw [processGameAction_players, processGameAction_gameLog, applyAction_roll_max s v hc1 hact hlt h6]
    constructor
    · rw [getD_set_self _ _ _ _ hcp]
      rw [getD_set_self _ _ _ _ hcells, heq6]
    · rw [hvm]
  · intro hfm hact hge h0p
    have hc1 : ((s.players.getD s.currentPlayer dummyPlayer).firstMove && (v != 1)) = false := by
      rcases hfm with h | h
      · rw [h]; rfl
      · subst h; simp
    have h0 : (((s.players.getD s.currentPlayer dummyPlayer).cells.getD (v - 1) dummyCell).bullets == 0) = true := by
      rw [beq_iff_eq]; exact h0p
    rw [processGameAction_players, processGameAction_gameLog, applyAction_roll_reload s v hc1 hact hge h0]
    constructor
    · rw [getD_set_self _ _ _ _ hcp]
      exact getD_set_self _ _ _ _ hcells
    · rw [hvm]
  · intro hfm hact hge h0p
    have hc1 : ((s.players.getD s.currentPlayer dummyPlayer).firstMove && (v != 1)) = false := by
      rcases hfm with h | h
      · rw [h]; rfl
      · subst h; simp
    have h0' : (((s.players.getD s.currentPlayer dummyPlayer).cells.getD (v - 1) dummyCell).bullets == 0) = false := by
      rw [beq_eq_false_iff_ne]; exact h0p
    rw [processGameAction_players, processGameAction_gameLog, applyAction_roll_noop s v hc1 hact hge h0']
    constructor
    · rw [getD_set_self _ _ _ _ hcp]
      exact ite_firstMove_cells _ _
    · rfl
  · intro j hj
    rw [processGameAction_players]
    by_cases hc1 : ((s.players.getD s.currentPlayer dummyPlayer).firstMove && (v != 1)) = true
    · rw [applyAction_roll_firstMove s v hc1]
    · have hc1' : ((s.players.getD s.currentPlayer dummyPlayer).firstMove && (v != 1)) = false := by
        revert hc1; cases (s.players.getD s.currentPlayer dummyPlayer).firstMove && (v != 1) <;> simp
      by_cases hact : ((s.players.getD s.currentPlayer dummyPlayer).cells.getD (v - 1) dummyCell).isActive = true
      · by_cases hlt : ((s.players.getD s.currentPlayer dummyPlayer).cells.getD (v - 1) dummyCell).stage < 6
        · by_cases h6 : (((s.players.getD s.currentPlayer dummyPlayer).cells.getD (v - 1) dummyCell).stage + 1 == 6) = true
          · rw [applyAction_roll_max s v hc1' hact hlt h6]
            exact getD_set_ne _ _ _ (Ne.symm hj)
          · have h6' : (((s.players.getD s.currentPlayer dummyPlayer).cells.getD (v - 1) dummyCell).stage + 1 == 6) = false := by
              revert h6; cases ((s.players.getD s.currentPlayer dummyPlayer).cells.getD (v - 1) dummyCell).stage + 1 == 6 <;> simp
            rw [applyAction_roll_bump s v hc1' hact hlt h6']
            exact getD_set_ne _ _ _ (Ne.symm hj)
        · by_cases h0 : (((s.players.getD s.currentPlayer dummyPlayer).cells.getD (v - 1) dummyCell).bullets == 0) = true
          · rw [applyAction_roll_reload s v hc1' hact hlt h0]
            exact getD_set_ne _ _ _ (Ne.symm hj)
          · have h0' : (((s.players.getD s.currentPlayer dummyPlayer).cells.getD (v - 1) dummyCell).bullets == 0) = false := by
              revert h0; cases ((s.players.getD s.currentPlayer dummyPlayer).cells.getD (v - 1) dummyCell).bullets == 0 <;> simp
            rw [applyAction_roll_noop s v hc1' hact hlt h0']
            exact getD_set_ne _ _ _ (Ne.symm hj)
      · have hact' : ((s.players.getD s.currentPlayer dummyPlayer).cells.getD (v - 1) dummyCell).isActive = false := by
          revert hact; cases ((s.players.getD s.currentPlayer dummyPlayer).cells.getD (v - 1) dummyCell).isActive <;> simp
        rw [applyAction_roll_activate s v hc1' hact']
        exact getD_set_ne _ _ _ (Ne.symm hj)

/-- Witness for C6: on a fresh two-player game the current player rolls
a 1 (first move), which activates cell 1. -/
theorem roll_spec_witness :
    (0 < exFresh2.players.length ∧ 1 ≤ (1 : Nat) ∧
      1 ≤ (exFresh2.players.getD exFresh2.currentPlayer dummyPlayer).cells.length) ∧
    ((processGameAction exFresh2 (GameAction.roll 1)).gameState.players.getD
        exFresh2.currentPlayer dummyPlayer).cells.getD 0 dummyCell
      = { stage := 1, isActive := true, bullets := 0 } :=
  ⟨by decide,
   ((roll_spec exFresh2 1 (by decide) (by decide) (by decide)).2.2.2.1
     (Or.inr rfl) (by decide)).1⟩

/-- C5 counterexample: shooting your own cell (targetPlayer = acting
player) satisfies the precondition (die 1, 5 bullets in cell index 0),
yet the cell ends with 0 bullets, not the claimed 5 - 1 = 4: the reset
of the target cell and the bullet decrement hit the same cell and the
decrement is lost. -/
theorem self_shoot_loses_bullet_decrement :
    exArmedState.lastRoll = some (0 + 1) ∧
    ((exArmedState.players.getD exArmedState.currentPlayer dummyPlayer).cells.getD 0 dummyCell).bullets = 5 ∧
    ¬ (((processGameAction exArmedState (GameAction.shoot 0 0)).gameState.players.getD 0
          dummyPlayer).cells.getD 0 dummyCell).bullets = 5 - 1 ∧
    (((processGameAction exArmedState (GameAction.shoot 0 0)).gameState.players.getD 0
        dummyPlayer).cells.getD 0 dummyCell).bullets = 0 := by
  decide

/-- C5 (amended): a shoot only mutates state when `lastRoll = targetCell+1`
and the actor's own cell there has bullets; on a hit against another
player the target cell resets, the actor's bullet count drops by one,
both stat counters bump, and a shoot entry is appended; on a hit against
the actor themselves the reset wins and the decrement is lost; on a miss
the state is unchanged apart from turn advancement. -/
theorem shoot_spec (s : GameState) (tp tc : Nat)
    (hcp : s.currentPlayer < s.players.length)
    (htp : tp < s.players.length)
    (htcA : tc < (s.players.getD s.currentPlayer dummyPlayer).cells.length)
    (htcT : tc < (s.players.getD tp dummyPlayer).cells.length) :
    (s.lastRoll = some (tc + 1) →
     0 < ((s.players.getD s.currentPlayer dummyPlayer).cells.getD tc dummyCell).bullets →
     tp ≠ s.currentPlayer →
       ((processGameAction s (.shoot tp tc)).gameState.players.getD tp dummyPlayer).cells.getD tc dummyCell
           = { stage := 0, isActive := false, bullets := 0 }
       ∧ ((processGameAction s (.shoot tp tc)).gameState.players.getD s.currentPlayer dummyPlayer).cells.getD tc dummyCell
           = { (s.players.getD s.currentPlayer dummyPlayer).cells.getD tc dummyCell with
               bullets := ((s.players.getD s.currentPlayer dummyPlayer).cells.getD tc dummyCell).bullets - 1 }
       ∧ ((processGameAction s (.shoot tp tc)).gameState.players.getD s.currentPlayer dummyPlayer).stats.shotsFired
           = (s.players.getD s.currentPlayer dummyPlayer).stats.shotsFired + 1
       ∧ ((processGameAction s (.shoot tp tc)).gameState.players.getD tp dummyPlayer).stats.timesTargeted
           = (s.players.getD tp dummyPlayer).stats.timesTargeted + 1
       ∧ (processGameAction s (.shoot tp tc)).gameState.gameLog.take (s.gameLog.length + 1)
           = s.gameLog ++ [shootEntry (s.players.getD s.currentPlayer dummyPlayer).username
               (s.players.getD tp dummyPlayer).username (tc + 1)]
       ∧ (processGameAction s (.shoot tp tc)).gameState.lastRoll = s.lastRoll
       ∧ (∀ j, j ≠ s.currentPlayer → j ≠ tp →
           (processGameAction s (.shoot tp tc)).gameState.players.getD j dummyPlayer
             = s.players.getD j dummyPlayer))
    ∧ (s.lastRoll = some (tc + 1) →
       0 < ((s.players.getD s.currentPlayer dummyPlayer).cells.getD tc dummyCell).bullets →
       tp = s.currentPlayer →
         ((processGameAction s (.shoot tp tc)).gameState.players.getD s.currentPlayer dummyPlayer).cells.getD tc dummyCell
             = { stage := 0, isActive := false, bullets := 0 }
         ∧ ((processGameAction s (.shoot tp tc)).gameState.players.getD s.currentPlayer dummyPlayer).stats.shotsFired
             = (s.players.getD s.currentPlayer dummyPlayer).stats.shotsFired + 1
         ∧ ((processGameAction s (.shoot tp tc)).gameState.players.getD s.currentPlayer dummyPlayer).stats.timesTargeted
             = (s.players.getD s.currentPlayer dummyPlayer).stats.timesTargeted + 1
         ∧ (processGameAction s (.shoot tp tc)).gameState.gameLog.take (s.gameLog.length + 1)
             = s.gameLog ++ [shootEntry (s.players.getD s.currentPlayer dummyPlayer).username
                 (s.players.getD s.currentPlayer dummyPlayer).username (tc + 1)])
    ∧ (¬ (s.lastRoll = some (tc + 1) ∧
          0 < ((s.players.getD s.currentPlayer dummyPlayer).cells.getD tc dummyCell).bullets) →
        (processGameAction s (.shoot tp tc)).gameState.players = s.players
        ∧ (processGameAction s (.shoot tp tc)).gameState.gameLog = s.gameLog
        ∧ (processGameAction s (.shoot tp tc)).gameState.lastRoll = s.lastRoll) := by
  refine ⟨?_, ?_, ?_⟩
  · intro hroll hbul hne
    have hnebeq : (tp == s.currentPlayer) = false := by
      rw [beq_eq_false_iff_ne]; exact hne
    have hkey := applyAction_shoot_hit s tp tc hnebeq hroll hbul
    refine ⟨?_, ?_, ?_, ?_, ?_, ?_, ?_⟩
    · rw [processGameAction_players, hkey]
      rw [getD_set_ne _ _ _ (Ne.symm hne), getD_set_self _ _ _ _ htp]
      exact getD_set_self _ _ _ _ htcT
    · rw [processGameAction_players, hkey]
      rw [getD_set_self _ _ _ _ (by simpa using hcp)]
      exact getD_set_self _ _ _ _ htcA
    · rw [processGameAction_players, hkey]
      rw [getD_set_self _ _ _ _ (by simpa using hcp)]
    · rw [processGameAction_players, hkey]
      rw [getD_set_ne _ _ _ (Ne.symm hne), getD_set_self _ _ _ _ htp]
    · rw [processGameAction_gameLog, hkey]
      rw [List.append_assoc]
      simp only [List.singleton_append]
      exact take_len_append_one _ _ _
    · rw [processGameAction_lastRoll, hkey]
    · intro j hjc hjt
      rw [processGameAction_players, hkey]
      rw [getD_set_ne _ _ _ (Ne.symm hjc), getD_set_ne _ _ _ (Ne.symm hjt)]
  · intro hroll hbul heq
    subst heq
    have hkey := applyAction_shoot_self s tc hroll hbul
    refine ⟨?_, ?_, ?_, ?_⟩
    · rw [processGameAction_players, hkey]
      rw [getD_set_self _ _ _ _ hcp]
      exact getD_set_self _ _ _ _ htcA
    · rw [processGameAction_players, hkey]
      rw [getD_set_self _ _ _ _ hcp]
    · rw [processGameAction_players, hkey]
      rw [getD_set_self _ _ _ _ hcp]
    · rw [processGameAction_gameLog, hkey]
      rw [List.append_assoc]
      simp only [List.singleton_append]
      exact take_len_append_one _ _ _
  · intro hmiss
    have h : s.lastRoll ≠ some (tc + 1) ∨
        ((s.players.getD s.currentPlayer dummyPlayer).cells.getD tc dummyCell).bullets = 0 := by
      rcases Classical.em (s.lastRoll = some (tc + 1)) with h1 | h1
      · right
        rcases Nat.eq_zero_or_pos ((s.players.getD s.currentPlayer dummyPlayer).cells.getD tc dummyCell).bullets with h2 | h2
        · exact h2
        · exact absurd ⟨h1, h2⟩ hmiss
      · exact Or.inl h1
    have hkey := applyAction_shoot_miss s tp tc h
    exact ⟨by rw [processGameAction_players, hkey],
           by rw [processGameAction_gameLog, hkey],
           by rw [processGameAction_lastRoll, hkey]⟩

/-- Witness for C5: a hit on the other player resets the target's cell. -/
theorem shoot_spec_witness :
    (exArmedState.lastRoll = some (0 + 1) ∧
     0 < ((exArmedState.players.getD exArmedState.currentPlayer dummyPlayer).cells.getD 0 dummyCell).bullets ∧
     (1 : Nat) ≠ exArmedState.currentPlayer) ∧
    ((processGameAction exArmedState (GameAction.shoot 1 0)).gameState.players.getD 1
        dummyPlayer).cells.getD 0 dummyCell
      = { stage := 0, isActive := false, bullets := 0 } :=
  ⟨by decide,
   ((shoot_spec exArmedState 1 0 (by decide) (by decide) (by decide) (by decide)).1
     (by decide) (by decide) (by decide)).1⟩

/-- C4 counterexample: in the freshly initialized two-player game,
player 0 has every cell inactive yet `eliminated = false`, so
`eliminated` is not the conjunction "all cells inactive" in every
reachable state. -/
theorem fresh_state_violates_eliminated_invariant :
    ((exFresh2.players.getD 0 dummyPlayer).cells.all (fun c => !c.isActive)) = true ∧
    (exFresh2.players.getD 0 dummyPlayer).eliminated = false ∧
    ¬ ((exFresh2.players.getD 0 dummyPlayer).eliminated
        = (exFresh2.players.getD 0 dummyPlayer).cells.all (fun c => !c.isActive)) := by
  decide

/-- C4 (amended): initialization creates every player with all cells
inactive and `eliminated = false`; `eliminated` is recomputed as exactly
"all cells inactive" only for the target of a successful shoot. -/
theorem eliminated_recompute_spec :
    (∀ (roster : List LobbyPlayer), ∀ p ∈ (initializeGameState roster).players,
        p.eliminated = false ∧ p.cells.all (fun c => !c.isActive) = true)
    ∧ (∀ (s : GameState) (tp tc : Nat),
        s.currentPlayer < s.players.length → tp < s.players.length →
        s.lastRoll = some (tc + 1) →
        0 < ((s.players.getD s.currentPlayer dummyPlayer).cells.getD tc dummyCell).bullets →
        ((processGameAction s (.shoot tp tc)).gameState.players.getD tp dummyPlayer).eliminated
          = ((processGameAction s (.shoot tp tc)).gameState.players.getD tp dummyPlayer).cells.all
              (fun c => !c.isActive)) := by
  constructor
  · intro roster p hp
    simp only [initializeGameState] at hp
    refine mem_mapIdxFrom (P := fun q => q.eliminated = false ∧ (q.cells.all fun c => !c.isActive) = true) ?_ 0 roster p hp
    intro i x
    constructor
    · rfl
    · simp only [List.all_eq_true]
      intro c hc
      rw [List.eq_of_mem_replicate hc]
      rfl
  · intro s tp tc hcp htp hroll hbul
    by_cases hne : tp = s.currentPlayer
    · subst hne
      rw [processGameAction_players, applyAction_shoot_self s tc hroll hbul]
      rw [getD_set_self _ _ _ _ hcp]
    · have hnebeq : (tp == s.currentPlayer) = false := by
        rw [beq_eq_false_iff_ne]; exact hne
      rw [processGameAction_players, applyAction_shoot_hit s tp tc hnebeq hroll hbul]
      rw [getD_set_ne _ _ _ (Ne.symm hne), getD_set_self _ _ _ _ htp]

/-- Witness for C4's amended theorem: shooting the fresh player 1
recomputes their `eliminated` flag from their (all inactive) cells. -/
theorem eliminated_recompute_spec_witness :
    ((processGameAction exArmedState (GameAction.shoot 1 0)).gameState.players.getD 1
        dummyPlayer).eliminated
      = ((processGameAction exArmedState (GameAction.shoot 1 0)).gameState.players.getD 1
          dummyPlayer).cells.all (fun c => !c.isActive) :=
  eliminated_recompute_spec.2 exArmedState 1 0 (by decide) (by decide) (by decide) (by decide)

/-- C3: concrete evaluation of the end-of-game history.  Player A shoots
the fresh player B, eliminating them and ending the game.  The adjacent
`shoot` log entry carries `shooter = some "A"`, but the history's
`eliminations` entry has `eliminator = none`, because the code reads the
(nonexistent) `shooter` field off the `eliminate` entry itself. -/
theorem history_eliminator_is_undefined :
    (processGameAction exArmedState (GameAction.shoot 1 0)).gameEnded = true ∧
    (processGameAction exArmedState (GameAction.shoot 1 0)).gameState.gameLog =
      [shootEntry "A" "B" 1, eliminateEntry "B"] ∧
    (processGameAction exArmedState (GameAction.shoot 1 0)).history =
      some { winner := "A",
             eliminations := [{ eliminator := none, eliminated := some "B" }],
             playerStats := [("A", { shotsFired := 1, eliminations := 1, timesTargeted := 0 }),
                             ("B", { shotsFired := 0, eliminations := 0, timesTargeted := 1 })] } := by
  decide

/-- C1 counterexample: an unknown action kind does not return the
unchanged state — on a fresh two-player game it advances `currentPlayer`
from 0 to 1. -/
theorem unknown_action_advances_turn :
    exFresh2.currentPlayer = 0 ∧
    (processGameAction exFresh2 (GameAction.unknownKind "foo")).gameState.currentPlayer = 1 ∧
    ¬ ((processGameAction exFresh2 (GameAction.unknownKind "foo")).gameState = exFresh2) := by
  decide

/-- C1 (amended): an unknown action kind appends no log entry and
mutates no player and no `lastRoll`, but the end-of-action sequence
still runs: `gameEnded` is computed from the unchanged roster, and when
the game is not ended `currentPlayer` advances exactly as after any
other action, landing on a non-eliminated player when at least two
remain. -/
theorem unknown_action_no_mutation_but_advances (s : GameState) (k : String) :
    (processGameAction s (.unknownKind k)).gameState.players = s.players
    ∧ (processGameAction s (.unknownKind k)).gameState.gameLog = s.gameLog
    ∧ (processGameAction s (.unknownKind k)).gameState.lastRoll = s.lastRoll
    ∧ ((processGameAction s (.unknownKind k)).gameEnded = true ↔ countActive s.players = 1)
    ∧ ((processGameAction s (.unknownKind k)).gameEnded = false →
        (processGameAction s (.unknownKind k)).gameState.currentPlayer =
          advanceLoop s.players s.currentPlayer s.players.length)
    ∧ (2 ≤ countActive s.players →
        ((processGameAction s (.unknownKind k)).gameState.players.getD
          (processGameAction s (.unknownKind k)).gameState.currentPlayer dummyPlayer).eliminated
          = false) := by
  have hid : applyAction s (.unknownKind k) = s := rfl
  refine ⟨?_, ?_, ?_, ?_, ?_, ?_⟩
  · rw [processGameAction_players, hid]
  · rw [processGameAction_gameLog, hid]
  · rw [processGameAction_lastRoll, hid]
  · have hiff := processGameAction_ended_iff s (.unknownKind k)
    rw [processGameAction_players, hid] at hiff
    exact hiff
  · intro hne
    have hadv := processGameAction_advance_currentPlayer s (.unknownKind k) hne
    rw [hid] at hadv
    exact hadv
  · intro h2
    cases hE : (processGameAction s (.unknownKind k)).gameEnded
    · have hadv := processGameAction_advance_currentPlayer s (.unknownKind k) hE
      rw [hid] at hadv
      rw [processGameAction_players, hid, hadv]
      exact advance_lands_active s.players s.currentPlayer h2
    · have h1 := (processGameAction_ended_iff s (.unknownKind k)).mp hE
      rw [processGameAction_players, hid] at h1
      omega

/-- Witness for C1's amended theorem on a fresh three-player game. -/
theorem unknown_action_no_mutation_but_advances_witness :
    2 ≤ countActive exFresh3.players ∧
    ((processGameAction exFresh3 (GameAction.unknownKind "noop")).gameState.players.getD
       (processGameAction exFresh3 (GameAction.unknownKind "noop")).gameState.currentPlayer
       dummyPlayer).eliminated = false :=
  ⟨by decide,
   (unknown_action_no_mutation_but_advances exFresh3 "noop").2.2.2.2.2 (by decide)⟩

/-!
## Room-directory lemmas
-/

theorem lookupRoom_append_none (rooms l : List (String × Room)) (k : String)
    (h : lookupRoom rooms k = none) :
    lookupRoom (rooms ++ l) k = lookupRoom l k := by
  induction rooms with
  | nil => rfl
  | cons pr rest ih =>
    obtain ⟨k1, r1⟩ := pr
    by_cases hk : k1 = k
    · subst hk
      simp [lookupRoom, List.find?] at h
    · simp only [lookupRoom, List.cons_append, List.find?] at h ⊢
      rw [show (k1 == k) = false from by simp [hk]] at h ⊢
      exact ih h

theorem lookupRoom_setRoom_self (rooms : List (String × Room)) (k : String) (r room : Room)
    (h : lookupRoom rooms k = some room) :
    lookupRoom (setRoom rooms k r) k = some r := by
  induction rooms with
  | nil => simp [lookupRoom] at h
  | cons pr rest ih =>
    obtain ⟨k1, r1⟩ := pr
    by_cases hk : k1 = k
    · subst hk
      simp only [setRoom, List.map]
      rw [if_pos (by simp)]
      simp [lookupRoom, List.find?]
    · simp only [lookupRoom, List.find?] at h
      rw [show (k1 == k) = false from by simp [hk]] at h
      simp only [setRoom, List.map]
      rw [if_neg (by simp [hk])]
      simp only [lookupRoom, List.find?]
      rw [show (k1 == k) = false from by simp [hk]]
      exact ih h

theorem lookupRoom_mem (rooms : List (String × Room)) (k : String) (r : Room)
    (h : lookupRoom rooms k = some r) : ∃ k2, (k2, r) ∈ rooms := by
  simp only [lookupRoom] at h
  cases hf : rooms.find? (fun x => x.1 == k) with
  | none => rw [hf] at h; simp at h
  | some pr =>
    rw [hf] at h
    simp only [Option.map_some'] at h
    refine ⟨pr.1, ?_⟩
    have hm := List.mem_of_find?_eq_some hf
    have : pr = (pr.1, r) := by
      cases pr
      simp only [Option.some.injEq] at h
      rw [h]
    rw [← this]
    exact hm

theorem handleJoinRoom_notFound (rooms : List (String × Room)) (sid roomId : String)
    (password : Option String) (username : String)
    (h : lookupRoom rooms roomId = none) :
    handleJoinRoom rooms sid roomId password username =
      (rooms, [{ target := .toSelf, payload := .errorPush "Room not found" }]) := by
  simp only [handleJoinRoom, h]

theorem handleJoinRoom_wrongPassword (rooms : List (String × Room)) (sid roomId : String)
    (password : Option String) (username : String) (room : Room) (pw : String)
    (h : lookupRoom rooms roomId = some room)
    (hpw : room.password = some pw) (hne : password ≠ some pw) :
    handleJoinRoom rooms sid roomId password username =
      (rooms, [{ target := .toSelf, payload := .errorPush "Incorrect password" }]) := by
  simp only [handleJoinRoom, h, hpw]
  rw [if_pos]
  simp [bne_iff_ne, hne]

theorem handleJoinRoom_full (rooms : List (String × Room)) (sid roomId : String)
    (password : Option String) (username : String) (room : Room)
    (h : lookupRoom rooms roomId = some room)
    (hpw : ∀ pw, room.password = some pw → password = some pw)
    (hfull : room.players.length ≥ room.maxPlayers) :
    handleJoinRoom rooms sid roomId password username =
      (rooms, [{ target := .toSelf, payload := .errorPush "Room is full" }]) := by
  have hpw2 : (match room.password with
      | some pw => password != some pw
      | none => false) = false := by
    cases hp : room.password with
    | none => rfl
    | some pw =>
      have := hpw pw hp
      simp [this]
  simp only [handleJoinRoom, h, hpw2, Bool.false_eq_true, if_false]
  rw [if_pos hfull]

theorem handleJoinRoom_started (rooms : List (String × Room)) (sid roomId : String)
    (password : Option String) (username : String) (room : Room)
    (h : lookupRoom rooms roomId = some room)
    (hpw : ∀ pw, room.password = some pw → password = some pw)
    (hfull : ¬ room.players.length ≥ room.maxPlayers)
    (hst : room.started = true) :
    handleJoinRoom rooms sid roomId password username =
      (rooms, [{ target := .toSelf, payload := .errorPush "Game already in progress" }]) := by
  have hpw2 : (match room.password with
      | some pw => password != some pw
      | none => false) = false := by
    cases hp : room.password with
    | none => rfl
    | some pw =>
      have := hpw pw hp
      simp [this]
  simp only [handleJoinRoom, h, hpw2, Bool.false_eq_true, if_false]
  rw [if_neg hfull, if_pos hst]

theorem handleJoinRoom_ok (rooms : List (String × Room)) (sid roomId : String)
    (password : Option String) (username : String) (room : Room)
    (h : lookupRoom rooms roomId = some room)
    (hpw : ∀ pw, room.password = some pw → password = some pw)
    (hfull : ¬ room.players.length ≥ room.maxPlayers)
    (hst : room.started = false) :
    handleJoinRoom rooms sid roomId password username =
      (setRoom rooms roomId
        { room with players := room.players ++
            [{ id := sid, username := username, ready := false, isLeader := false,
               color := PLAYER_COLORS.getD (room.players.length % PLAYER_COLORS.length) "" }] },
       [{ target := .toRoom roomId,
          payload := .playerJoined (stripRoom
            { room with players := room.players ++
                [{ id := sid, username := username, ready := false, isLeader := false,
                   color := PLAYER_COLORS.getD (room.players.length % PLAYER_COLORS.length) "" }] }) }]) := by
  have hpw2 : (match room.password with
      | some pw => password != some pw
      | none => false) = false := by
    cases hp : room.password with
    | none => rfl
    | some pw =>
      have := hpw pw hp
      simp [this]
  simp only [handleJoinRoom, h, hpw2, Bool.false_eq_true, if_false]
  rw [if_neg hfull, if_neg (by rw [hst]; exact Bool.false_ne_true)]

theorem getD_append_length (l : List α) (x d : α) :
    (l ++ [x]).getD l.length d = x := by
  induction l with
  | nil => rfl
  | cons y l ih => simp only [List.cons_append, List.length_cons, List.getD_cons_succ]; exact ih

/-- C8: `joinRoom` fails with "Room not found" when the code is unknown,
"Incorrect password" when a set password mismatches, "Room is full" at
capacity, "Game already in progress" once started — each a single error
push to the requester with the directory unchanged — and otherwise
appends a non-leader, non-ready player and broadcasts the updated
(password-stripped) room. -/
theorem joinRoom_spec (rooms : List (String × Room)) (sid roomId : String)
    (password : Option String) (username : String) :
    (lookupRoom rooms roomId = none →
      (handleJoinRoom rooms sid roomId password username).1 = rooms ∧
      (handleJoinRoom rooms sid roomId password username).2 =
        [{ target := .toSelf, payload := .errorPush "Room not found" }])
    ∧ (∀ room pw, lookupRoom rooms roomId = some room →
        room.password = some pw → password ≠ some pw →
        (handleJoinRoom rooms sid roomId password username).1 = rooms ∧
        (handleJoinRoom rooms sid roomId password username).2 =
          [{ target := .toSelf, payload := .errorPush "Incorrect password" }])
    ∧ (∀ room, lookupRoom rooms roomId = some room →
        (∀ pw, room.password = some pw → password = some pw) →
        room.players.length ≥ room.maxPlayers →
        (handleJoinRoom rooms sid roomId password username).1 = rooms ∧
        (handleJoinRoom rooms sid roomId password username).2 =
          [{ target := .toSelf, payload := .errorPush "Room is full" }])
    ∧ (∀ room, lookupRoom rooms roomId = some room →
        (∀ pw, room.password = some pw → password = some pw) →
        ¬ room.players.length ≥ room.maxPlayers →
        room.started = true →
        (handleJoinRoom rooms sid roomId password username).1 = rooms ∧
        (handleJoinRoom rooms sid roomId password username).2 =
          [{ target := .toSelf, payload := .errorPush "Game already in progress" }])
    ∧ (∀ room, lookupRoom rooms roomId = some room →
        (∀ pw, room.password = some pw → password = some pw) →
        ¬ room.players.length ≥ room.maxPlayers →
        room.started = false →
        lookupRoom (handleJoinRoom rooms sid roomId password username).1 roomId =
          some { room with players := room.players ++
            [{ id := sid, username := username, ready := false, isLeader := false,
               color := PLAYER_COLORS.getD (room.players.length % PLAYER_COLORS.length) "" }] } ∧
        (handleJoinRoom rooms sid roomId password username).2 =
          [{ target := .toRoom roomId,
             payload := .playerJoined (stripRoom { room with players := room.players ++
               [{ id := sid, username := username, ready := false, isLeader := false,
                  color := PLAYER_COLORS.getD (room.players.length % PLAYER_COLORS.length) "" }] }) }]) := by
  refine ⟨?_, ?_, ?_, ?_, ?_⟩
  · intro h
    rw [handleJoinRoom_notFound rooms sid roomId password username h]
    exact ⟨rfl, rfl⟩
  · intro room pw h hpw hne
    rw [handleJoinRoom_wrongPassword rooms sid roomId password username room pw h hpw hne]
    exact ⟨rfl, rfl⟩
  · intro room h hpw hfull
    rw [handleJoinRoom_full rooms sid roomId password username room h hpw hfull]
    exact ⟨rfl, rfl⟩
  · intro room h hpw hfull hst
    rw [handleJoinRoom_started rooms sid roomId password username room h hpw hfull hst]
    exact ⟨rfl, rfl⟩
  · intro room h hpw hfull hst
    rw [handleJoinRoom_ok rooms sid roomId password username room h hpw hfull hst]
    exact ⟨lookupRoom_setRoom_self rooms roomId _ room h, rfl⟩

/-- Witness for C8: a third player joins the open two-member room. -/
theorem joinRoom_spec_witness :
    lookupRoom (handleJoinRoom exRooms "sC" "42" none "carol").1 "42" =
      some { exRoom42 with players := exRoom42.players ++
        [{ id := "sC", username := "carol", ready := false, isLeader := false,
           color := "#10B981" }] } :=
  ((joinRoom_spec exRooms "sC" "42" none "carol").2.2.2.2 exRoom42 (by decide)
    (fun pw h => Option.noConfusion h) (by decide) (by decide)).1

/-- C2: the `disconnect` handler does not behave like `leaveRoom`.  The
source's `socket.emit('leaveRoom')` sends a message to the disconnected
client instead of invoking the server-side handler, so the directory is
untouched, while `leaveRoom` removes the player and transfers
leadership. -/
theorem disconnect_differs_from_leaveRoom :
    (handleDisconnect exRooms "sA").1 = exRooms ∧
    (handleDisconnect exRooms "sA").2 =
      [{ target := EmitTarget.toSelf, payload := Payload.leaveRoomSignal }] ∧
    (handleLeaveRoom exRooms "sA").1 =
      [("42", { exRoom42 with
                leader := "sB"
                players := [{ exLobbyB with isLeader := true }] })] ∧
    ¬ ((handleDisconnect exRooms "sA").1 = (handleLeaveRoom exRooms "sA").1) := by
  decide

/-- C10: a created room's sole player (the creator and leader) starts
with `ready = true`, so the creator's immediate solo `startGame`
succeeds, while `joinRoom` appends players with `ready = false`. -/
theorem creator_ready_solo_start :
    (∀ (rooms : List (String × Room)) (sid newId : String) (maxP : Nat)
        (pw : Option String) (u : String),
      lookupRoom rooms newId = none →
      ∃ room, lookupRoom (handleCreateRoom rooms sid newId maxP pw u).1 newId = some room
        ∧ room.players.map (fun p => (p.id, p.ready, p.isLeader)) = [(sid, true, true)]
        ∧ room.leader = sid ∧ room.started = false)
    ∧ (∀ (rooms : List (String × Room)) (sid newId : String) (maxP : Nat)
        (pw : Option String) (u : String),
      lookupRoom rooms newId = none →
      ∃ room, lookupRoom
          (handleStartGame (handleCreateRoom rooms sid newId maxP pw u).1 sid newId).1 newId
            = some room
        ∧ room.started = true ∧ room.gameState.isSome = true)
    ∧ (∀ (rooms : List (String × Room)) (sid roomId : String) (password : Option String)
        (username : String) (room : Room),
        lookupRoom rooms roomId = some room →
        (∀ pw2, room.password = some pw2 → password = some pw2) →
        ¬ room.players.length ≥ room.maxPlayers →
        room.started = false →
        ∃ room2, lookupRoom (handleJoinRoom rooms sid roomId password username).1 roomId
            = some room2
          ∧ room2.players.getD room.players.length dummyLobbyPlayer =
              { id := sid, username := username, ready := false, isLeader := false,
                color := PLAYER_COLORS.getD (room.players.length % PLAYER_COLORS.length) "" }) := by
  refine ⟨?_, ?_, ?_⟩
  · intro rooms sid newId maxP pw u hfresh
    have hlk : lookupRoom (handleCreateRoom rooms sid newId maxP pw u).1 newId =
        some { id := newId, leader := sid,
               password := match pw with
                 | none => none
                 | some s => if s = "" then none else some s,
               maxPlayers := maxP, isQuickMatch := false,
               players := [{ id := sid, username := u, ready := true, isLeader := true,
                             color := PLAYER_COLORS.getD 0 "" }],
               gameState := none, started := false } := by
      show lookupRoom (rooms ++ [(newId, _)]) newId = _
      rw [lookupRoom_append_none rooms _ newId hfresh]
      simp [lookupRoom, List.find?]
    exact ⟨_, hlk, rfl, rfl, rfl⟩
  · intro rooms sid newId maxP pw u hfresh
    have hlk1 : lookupRoom (handleCreateRoom rooms sid newId maxP pw u).1 newId =
        some { id := newId, leader := sid,
               password := match pw with
                 | none => none
                 | some s => if s = "" then none else some s,
               maxPlayers := maxP, isQuickMatch := false,
               players := [{ id := sid, username := u, ready := true, isLeader := true,
                             color := PLAYER_COLORS.getD 0 "" }],
               gameState := none, started := false } := by
      show lookupRoom (rooms ++ [(newId, _)]) newId = _
      rw [lookupRoom_append_none rooms _ newId hfresh]
      simp [lookupRoom, List.find?]
    simp only [handleStartGame, hlk1]
    rw [if_neg (by simp), if_pos (by simp)]
    exact ⟨_, lookupRoom_setRoom_self _ _ _ _ hlk1, rfl, rfl⟩
  · intro rooms sid roomId password username room h hpw hfull hst
    rw [handleJoinRoom_ok rooms sid roomId password username room h hpw hfull hst]
    exact ⟨_, lookupRoom_setRoom_self rooms roomId _ room h, getD_append_length _ _ _⟩

/-- Witness for C10: creating room 777 in an empty directory yields a
sole, ready leader. -/
theorem creator_ready_solo_start_witness :
    ∃ room, lookupRoom (handleCreateRoom [] "sA" "777" 4 none "alice").1 "777" = some room
      ∧ room.players.map (fun p => (p.id, p.ready, p.isLeader)) = [("sA", true, true)]
      ∧ room.leader = "sA" ∧ room.started = false :=
  creator_ready_solo_start.1 [] "sA" "777" 4 none "alice" rfl

/-!
## Password-stripping lemmas (quick-match invariant)
-/

theorem QuickInv_lookup (rooms : List (String × Room)) (k : String) (r : Room)
    (h : QuickInv rooms) (hlk : lookupRoom rooms k = some r) :
    r.isQuickMatch = true → r.password = none := by
  obtain ⟨k2, hm⟩ := lookupRoom_mem rooms k r hlk
  exact h (k2, r) hm

theorem QuickInv_setRoom (rooms : List (String × Room)) (k : String) (r : Room)
    (h : QuickInv rooms) (hr : r.isQuickMatch = true → r.password = none) :
    QuickInv (setRoom rooms k r) := by
  intro pr hpr
  simp only [setRoom, List.mem_map] at hpr
  obtain ⟨pr0, hpr0, heq⟩ := hpr
  by_cases hk : (pr0.1 == k) = true
  · rw [if_pos hk] at heq
    rw [← heq]
    exact hr
  · rw [if_neg hk] at heq
    rw [← heq]
    exact h pr0 hpr0

theorem QuickInv_append (rooms : List (String × Room)) (k : String) (r : Room)
    (h : QuickInv rooms) (hr : r.isQuickMatch = true → r.password = none) :
    QuickInv (rooms ++ [(k, r)]) := by
  intro pr hpr
  rcases List.mem_append.mp hpr with hm | hm
  · exact h pr hm
  · have := List.mem_singleton.mp hm
    subst this
    exact hr

theorem leaveRooms_free (sid : String) (rooms : List (String × Room)) (h : QuickInv rooms) :
    (∀ e ∈ (leaveRooms sid rooms).2, payloadPasswordFree e.payload)
    ∧ QuickInv (leaveRooms sid rooms).1 := by
  induction rooms with
  | nil => exact ⟨by intro e he; simp [leaveRooms] at he, h⟩
  | cons pr rest ih =>
    obtain ⟨k, room⟩ := pr
    have hrest : QuickInv rest := fun pr2 hm => h pr2 (List.mem_cons_of_mem _ hm)
    have hhead : room.isQuickMatch = true → room.password = none :=
      h (k, room) (List.mem_cons_self _ _)
    obtain ⟨ih1, ih2⟩ := ih hrest
    rcases hrec : leaveRooms sid rest with ⟨rest2, emits⟩
    rw [hrec] at ih1 ih2
    simp only [leaveRooms, hrec]
    cases hf : room.players.findIdx? (fun p => p.id == sid) with
    | none =>
      refine ⟨ih1, ?_⟩
      intro pr2 hm
      rcases List.mem_cons.mp hm with heq | hm2
      · subst heq
        exact hhead
      · exact ih2 pr2 hm2
    | some i =>
      dsimp only
      by_cases hemp : (room.players.eraseIdx i).isEmpty = true
      · rw [if_pos hemp]
        refine ⟨?_, ih2⟩
        intro e he
        rcases List.mem_cons.mp he with heq | hm2
        · subst heq
          exact rfl
        · exact ih1 e hm2
      · rw [if_neg hemp]
        by_cases hld : (room.leader == sid) = true
        · rw [if_pos hld]
          constructor
          · intro e he
            rcases List.mem_cons.mp he with heq | hm2
            · subst heq
              exact rfl
            · exact ih1 e hm2
          · intro pr2 hm
            rcases List.mem_cons.mp hm with heq | hm2
            · subst heq
              exact hhead
            · exact ih2 pr2 hm2
        · rw [if_neg hld]
          constructor
          · intro e he
            rcases List.mem_cons.mp he with heq | hm2
            · subst heq
              exact rfl
            · exact ih1 e hm2
          · intro pr2 hm
            rcases List.mem_cons.mp hm with heq | hm2
            · subst heq
              exact hhead
            · exact ih2 pr2 hm2

theorem handleCreateRoom_free (rooms : List (String × Room)) (sid newId : String)
    (maxPlayers : Nat) (password : Option String) (username : String)
    (h : QuickInv rooms) :
    (∀ e ∈ (handleCreateRoom rooms sid newId maxPlayers password username).2,
        payloadPasswordFree e.payload)
    ∧ QuickInv (handleCreateRoom rooms sid newId maxPlayers password username).1 := by
  constructor
  · intro e he
    simp only [handleCreateRoom, List.mem_singleton] at he
    subst he
    exact rfl
  · exact QuickInv_append rooms newId _ h (fun hq => by simp at hq)

theorem handleJoinRoom_free (rooms : List (String × Room)) (sid roomId : String)
    (password : Option String) (username : String) (h : QuickInv rooms) :
    (∀ e ∈ (handleJoinRoom rooms sid roomId password username).2, payloadPasswordFree e.payload)
    ∧ QuickInv (handleJoinRoom rooms sid roomId password username).1 := by
  cases hlk : lookupRoom rooms roomId with
  | none =>
    rw [handleJoinRoom_notFound _ _ _ _ _ hlk]
    exact ⟨by intro e he; simp only [List.mem_singleton] at he; subst he; exact trivial, h⟩
  | some room =>
    simp only [handleJoinRoom, hlk]
    split
    · exact ⟨by intro e he; simp only [List.mem_singleton] at he; subst he; exact trivial, h⟩
    · split
      · exact ⟨by intro e he; simp only [List.mem_singleton] at he; subst he; exact trivial, h⟩
      · split
        · exact ⟨by intro e he; simp only [List.mem_singleton] at he; subst he; exact trivial, h⟩
        · constructor
          · intro e he
            simp only [List.mem_singleton] at he
            subst he
            exact rfl
          · exact QuickInv_setRoom rooms roomId _ h
              (fun hq => QuickInv_lookup rooms roomId room h hlk hq)

theorem handleToggleReady_free (rooms : List (String × Room)) (sid roomId : String)
    (h : QuickInv rooms) :
    (∀ e ∈ (handleToggleReady rooms sid roomId).2, payloadPasswordFree e.payload)
    ∧ QuickInv (handleToggleReady rooms sid roomId).1 := by
  cases hlk : lookupRoom rooms roomId with
  | none =>
    simp only [handleToggleReady, hlk]
    exact ⟨by intro e he; simp at he, h⟩
  | some room =>
    simp only [handleToggleReady, hlk]
    cases hf : room.players.findIdx? (fun p => p.id == sid) with
    | none => exact ⟨by intro e he; simp at he, h⟩
    | some i =>
      constructor
      · intro e he
        simp only [List.mem_singleton] at he
        subst he
        exact rfl
      · exact QuickInv_setRoom rooms roomId _ h
          (fun hq => QuickInv_lookup rooms roomId room h hlk hq)

theorem handleStartGame_free (rooms : List (String × Room)) (sid roomId : String)
    (h : QuickInv rooms) :
    (∀ e ∈ (handleStartGame rooms sid roomId).2, payloadPasswordFree e.payload)
    ∧ QuickInv (handleStartGame rooms sid roomId).1 := by
  cases hlk : lookupRoom rooms roomId with
  | none =>
    simp only [handleStartGame, hlk]
    exact ⟨by intro e he; simp at he, h⟩
  | some room =>
    simp only [handleStartGame, hlk]
    split
    · exact ⟨by intro e he; simp at he, h⟩
    · split
      · constructor
        · intro e he
          simp only [List.mem_singleton] at he
          subst he
          exact trivial
        · exact QuickInv_setRoom rooms roomId _ h
            (fun hq => QuickInv_lookup rooms roomId room h hlk hq)
      · exact ⟨by intro e he; simp at he, h⟩

theorem handleGameAction_free (rooms : List (String × Room)) (sid roomId : String)
    (action : GameAction) (h : QuickInv rooms) :
    (∀ e ∈ (handleGameAction rooms sid roomId action).2, payloadPasswordFree e.payload)
    ∧ QuickInv (handleGameAction rooms sid roomId action).1 := by
  cases hlk : lookupRoom rooms roomId with
  | none =>
    simp only [handleGameAction, hlk]
    exact ⟨by intro e he; simp at he, h⟩
  | some room =>
    simp only [handleGameAction, hlk]
    split
    · exact ⟨by intro e he; simp at he, h⟩
    · split
      · exact ⟨by intro e he; simp at he, h⟩
      · split
        · exact ⟨by intro e he; simp at he, h⟩
        · constructor
          · intro e he
            split at he <;> (simp only [List.mem_singleton] at he; subst he; exact trivial)
          · exact QuickInv_setRoom rooms roomId _ h
              (fun hq => QuickInv_lookup rooms roomId room h hlk hq)

theorem handleSendEmote_free (rooms : List (String × Room)) (sid roomId emote : String)
    (h : QuickInv rooms) :
    (∀ e ∈ (handleSendEmote rooms sid roomId emote).2, payloadPasswordFree e.payload)
    ∧ QuickInv (handleSendEmote rooms sid roomId emote).1 := by
  cases hlk : lookupRoom rooms roomId with
  | none =>
    simp only [handleSendEmote, hlk]
    exact ⟨by intro e he; simp at he, h⟩
  | some room =>
    simp only [handleSendEmote, hlk]
    cases hf : room.players.find? (fun p => p.id == sid) with
    | none => exact ⟨by intro e he; simp at he, h⟩
    | some player =>
      constructor
      · intro e he
        simp only [List.mem_singleton] at he
        subst he
        exact trivial
      · exact h

theorem handleQuickMatch_free (rooms : List (String × Room)) (sid newId username : String)
    (h : QuickInv rooms) :
    (∀ e ∈ (handleQuickMatch rooms sid newId username).2, payloadPasswordFree e.payload)
    ∧ QuickInv (handleQuickMatch rooms sid newId username).1 := by
  cases hf : rooms.find? (fun x =>
      x.2.isQuickMatch && !x.2.started && x.2.players.length < x.2.maxPlayers) with
  | none =>
    simp only [handleQuickMatch, hf]
    constructor
    · intro e he
      simp only [List.mem_singleton] at he
      subst he
      exact rfl
    · exact QuickInv_append rooms newId _ h (fun _ => rfl)
  | some pr =>
    obtain ⟨roomId, room⟩ := pr
    have hpred := List.find?_some hf
    have hqm : room.isQuickMatch = true := by
      simp only [Bool.and_eq_true, decide_eq_true_eq] at hpred
      exact hpred.1.1
    have hmem := List.mem_of_find?_eq_some hf
    have hpw : room.password = none := h (roomId, room) hmem hqm
    simp only [handleQuickMatch, hf]
    split
    · constructor
      · intro e he
        rcases List.mem_cons.mp he with heq | hm2
        · subst heq
          exact hpw
        · simp only [List.mem_singleton] at hm2
          subst hm2
          exact trivial
      · exact QuickInv_setRoom rooms roomId _ h (fun _ => hpw)
    · constructor
      · intro e he
        simp only [List.mem_singleton] at he
        subst he
        exact hpw
      · exact QuickInv_setRoom rooms roomId _ h (fun _ => hpw)

theorem handleLeaveRoom_free (rooms : List (String × Room)) (sid : String)
    (h : QuickInv rooms) :
    (∀ e ∈ (handleLeaveRoom rooms sid).2, payloadPasswordFree e.payload)
    ∧ QuickInv (handleLeaveRoom rooms sid).1 :=
  leaveRooms_free sid rooms h

theorem handleDisconnect_free (rooms : List (String × Room)) (sid : String)
    (h : QuickInv rooms) :
    (∀ e ∈ (handleDisconnect rooms sid).2, payloadPasswordFree e.payload)
    ∧ QuickInv (handleDisconnect rooms sid).1 :=
  ⟨by intro e he; simp only [handleDisconnect, List.mem_singleton] at he; subst he; exact trivial, h⟩

theorem serverStep_free (rooms : List (String × Room)) (sid newId : String) (ev : ClientEvent)
    (h : QuickInv rooms) :
    (∀ e ∈ (serverStep rooms sid newId ev).2, payloadPasswordFree e.payload)
    ∧ QuickInv (serverStep rooms sid newId ev).1 := by
  cases ev with
  | quickMatch username => exact handleQuickMatch_free rooms sid newId username h
  | createRoom maxPlayers password username =>
    exact handleCreateRoom_free rooms sid newId maxPlayers password username h
  | joinRoom roomId password username =>
    exact handleJoinRoom_free rooms sid roomId password username h
  | toggleReady roomId => exact handleToggleReady_free rooms sid roomId h
  | startGame roomId => exact handleStartGame_free rooms sid roomId h
  | gameAction roomId action => exact handleGameAction_free rooms sid roomId action h
  | sendEmote roomId emote => exact handleSendEmote_free rooms sid roomId emote h
  | leaveRoom => exact handleLeaveRoom_free rooms sid h
  | disconnect => exact handleDisconnect_free rooms sid h

/-- C9: starting from the empty directory, every push the server ever
emits along any event trace satisfies `payloadPasswordFree`: each
Room-carrying payload (`roomCreated`, `playerJoined`, `roomUpdated`,
`playerLeft`) has `password = none` — the four stripped broadcasts by
construction, and the unstripped quick-match broadcasts because
quick-match rooms never carry a password. -/
theorem pushes_never_carry_password (trace : List (String × String × ClientEvent)) :
    ∀ e ∈ (runServerFrom [] trace).2, payloadPasswordFree e.payload := by
  have main : ∀ (tr : List (String × String × ClientEvent)) (rooms : List (String × Room)),
      QuickInv rooms →
      (∀ e ∈ (runServerFrom rooms tr).2, payloadPasswordFree e.payload)
      ∧ QuickInv (runServerFrom rooms tr).1 := by
    intro tr
    induction tr with
    | nil =>
      intro rooms h
      exact ⟨by intro e he; simp [runServerFrom] at he, h⟩
    | cons evt rest ih =>
      intro rooms h
      obtain ⟨sid, newId, ev⟩ := evt
      have hstep := serverStep_free rooms sid newId ev h
      have hrest := ih (serverStep rooms sid newId ev).1 hstep.2
      constructor
      · intro e he
        simp only [runServerFrom] at he
        rcases List.mem_append.mp he with hm | hm
        · exact hstep.1 e hm
        · exact hrest.1 e hm
      · exact hrest.2
  exact fun e he => (main trace [] (by intro pr hpr; simp at hpr)).1 e he

/-- Witness for C9: the push produced by creating a room with password
"pw" carries a password-stripped room. -/
theorem pushes_never_carry_password_witness :
    payloadPasswordFree (Emit.payload
      { target := EmitTarget.toSelf,
        payload := Payload.roomCreated
          { id := "100001", leader := "sA", password := none, maxPlayers := 4,
            isQuickMatch := false,
            players := [{ id := "sA", username := "alice", ready := true, isLeader := true,
                          color := "#3B82F6" }],
            gameState := none, started := false } }) :=
  pushes_never_carry_password
    [("sA", "100001", ClientEvent.createRoom 4 (some "pw") "alice")]
    { target := EmitTarget.toSelf,
      payload := Payload.roomCreated
        { id := "100001", leader := "sA", password := none, maxPlayers := 4,
          isQuickMatch := false,
          players := [{ id := "sA", username := "alice", ready := true, isLeader := true,
                        color := "#3B82F6" }],
          gameState := none, started := false } }
    (by decide)
